import Mathlib

/-!
# Verification of the video-ffmpeg-poc operation-to-command compiler

Shallow embedding of the two ffmpeg service backends of the repository:

* `src/CPU-Powered-POC/services/ffmpeg_service.py`  (software backend, prefix `cpu_`)
* `src/Integrated-GPU-Powered-POC/services/ffmpeg_service.py` (accelerated backend, prefix `gpu_`)

Python dictionaries are modelled as insertion-ordered association lists
whose `dictSet` replaces in place; Python's loosely typed argument values
are the inductive `Value`; fallible Python code (uncaught `ValueError` /
`AttributeError` / `NameError`) is modelled with `Except PyErr`.

Floating point only appears in the source when *rendering* numbers into
filter strings (`str(float)`, `f"{x:.2f}"`).  Those renderings are modelled
by exact rational decimal rendering (`decimalOfScaled`); for the values the
source produces (opacity in hundredths, degrees·3.14159265/180) the binary
double's `repr`/`.2f` coincides with the exact decimal except possibly in
far trailing digits of `repr`, which no claim depends on.
-/

/-- Errors raised by the modelled Python code paths. -/
inductive PyErr where
  | valueError
  | attributeError
  | nameError
deriving Repr, DecidableEq

/-- Decidable equality for `Except`, so concrete compiler runs can be checked
by `decide`. -/
instance {e a : Type} [DecidableEq e] [DecidableEq a] : DecidableEq (Except e a)
  | Except.error x, Except.error y =>
    if h : x = y then isTrue (congrArg Except.error h)
    else isFalse (fun hh => h (Except.error.inj hh))
  | Except.error _, Except.ok _ => isFalse (fun hh => Except.noConfusion hh)
  | Except.ok _, Except.error _ => isFalse (fun hh => Except.noConfusion hh)
  | Except.ok x, Except.ok y =>
    if h : x = y then isTrue (congrArg Except.ok h)
    else isFalse (fun hh => h (Except.ok.inj hh))

/-- Python runtime values produced by the argument parser and consumed by the
compiler: `bool`, `int`, `float` (kept as the exact source literal), `str`. -/
inductive Value where
  | bool (b : Bool)
  | int (i : Int)
  | float (lit : String)
  | str (s : String)
deriving Repr, DecidableEq

/-- A Python dict with string keys, as an insertion-ordered association list. -/
def Dict : Type := List (String × Value)

instance : DecidableEq Dict := by
  unfold Dict; infer_instance

instance : Append Dict := ⟨fun a b => List.append a b⟩

/-- `d[k] = v`: replace in place if the key exists, else append (Python dict
assignment preserves the insertion position of an existing key). -/
def dictSet (d : Dict) (k : String) (v : Value) : Dict :=
  if d.any (fun p => p.1 = k) then
    d.map (fun p => if p.1 = k then (k, v) else p)
  else
    List.append d [(k, v)]

/-- `d.get(k)` returning `none` when absent. -/
def dictGet (d : Dict) (k : String) : Option Value :=
  (d.find? (fun p => p.1 = k)).map (fun p => p.2)

/-- `d.get(k, default)`. -/
def dictGetD (d : Dict) (k : String) (v₀ : Value) : Value :=
  (dictGet d k).getD v₀

/-- `k in d`. -/
def dictHasKey (d : Dict) (k : String) : Bool :=
  (dictGet d k).isSome

/-- Split a character list at the first occurrence of `c`. -/
def splitAtChar (c : Char) : List Char → Option (List Char × List Char)
  | [] => none
  | x :: r =>
    if x = c then some ([], r)
    else (splitAtChar c r).map (fun p => (x :: p.1, p.2))

/-- ASCII lowercasing of one character (`str.lower()` restricted to the ASCII
range the source meets). -/
def pyLowerChar (c : Char) : Char :=
  if 'A' ≤ c ∧ c ≤ 'Z' then Char.ofNat (c.toNat + 32) else c

/-- `s.lower()` (ASCII). -/
def pyLower (s : String) : String :=
  String.mk (s.toList.map pyLowerChar)

/-- `s.strip()`: drop whitespace from both ends. -/
def pyStrip (s : String) : String :=
  String.mk (((s.toList.dropWhile Char.isWhitespace).reverse.dropWhile Char.isWhitespace).reverse)

/-- `c in s` for a single character. -/
def strContains (s : String) (c : Char) : Bool :=
  s.toList.contains c

/-- Split a character list on every occurrence of `c` (Python `str.split(c)`:
consecutive separators give empty fields). -/
def splitChars (c : Char) : List Char → List (List Char)
  | [] => [[]]
  | x :: r =>
    if x = c then [] :: splitChars c r
    else
      match splitChars c r with
      | [] => [[x]]
      | g :: gs => (x :: g) :: gs

/-- `s.split(c)`. -/
def splitAllChar (s : String) (c : Char) : List String :=
  (splitChars c s.toList).map String.mk

/-- `s.split(c, 1)`: the text before the first `c` and everything after it
(empty when `c` is absent). -/
def splitFirstChar (s : String) (c : Char) : String × String :=
  match splitAtChar c s.toList with
  | none => (s, "")
  | some (a, b) => (String.mk a, String.mk b)

/-- Numeric value of a list of ASCII digit characters. -/
def digitsToNat (l : List Char) : Nat :=
  l.foldl (fun n c => n * 10 + (c.toNat - 48)) 0

/-- Tail of a Python digit group after a leading digit: digits with single
underscores allowed only between digits. -/
def digitTail : List Char → Option (List Char)
  | [] => some []
  | '_' :: [] => none
  | '_' :: c :: r => if c.isDigit then (digitTail r).map (fun l => c :: l) else none
  | c :: r => if c.isDigit then (digitTail r).map (fun l => c :: l) else none

/-- A possibly-empty Python digit group (underscores stripped on success). -/
def digitGroup : List Char → Option (List Char)
  | [] => some []
  | c :: r => if c.isDigit then (digitTail r).map (fun l => c :: l) else none

/-- Consume an optional sign, returning `(negative?, rest)`. -/
def signSplit : List Char → Bool × List Char
  | '+' :: r => (false, r)
  | '-' :: r => (true, r)
  | l => (false, l)

/-- Split a character list at the first `e`/`E` exponent marker. -/
def splitAtExp : List Char → List Char × Option (List Char)
  | [] => ([], none)
  | x :: r =>
    if x = 'e' ∨ x = 'E' then ([], some r)
    else
      let p := splitAtExp r
      (x :: p.1, p.2)

/-- Parse an exponent suffix (after `e`/`E`): optional sign, nonempty digit group. -/
def parseExpPart (l : List Char) : Option Int :=
  let (neg, rest) := signSplit l
  match digitGroup rest with
  | some ds =>
    if ds.isEmpty then none
    else some ((if neg then -1 else 1) * (digitsToNat ds : Int))
  | none => none

/-- Parse a Python float literal that contains a decimal point (the only
float-literal shape the source ever feeds to `float()`, guarded by
`"." in v`).  Returns `(negative?, mantissa, power)` with value
`±mantissa · 10^power`. -/
def parsePyFloat (s : String) : Option (Bool × Nat × Int) :=
  let (neg, cs) := signSplit s.toList
  match splitAtChar '.' cs with
  | none => none
  | some (ipart, rest) =>
    let (fpart, expPart) := splitAtExp rest
    match digitGroup ipart, digitGroup fpart with
    | some id, some fd =>
      if id.isEmpty && fd.isEmpty then none
      else
        match expPart with
        | none => some (neg, digitsToNat (id ++ fd), -(fd.length : Int))
        | some ecs =>
          match parseExpPart ecs with
          | some e => some (neg, digitsToNat (id ++ fd), e - (fd.length : Int))
          | none => none
    | _, _ => none

/-- Left-pad a string with `'0'` up to length `len`. -/
def padZeros (s : String) (len : Nat) : String :=
  if s.length ≥ len then s
  else String.mk (List.replicate (len - s.length) '0') ++ s

/-- Drop trailing `'0'` characters. -/
def stripZerosRight (l : List Char) : List Char :=
  (l.reverse.dropWhile (fun c => c = '0')).reverse

/-- Render the exact rational `n / 10^shift` the way Python renders the
corresponding float (integer part, dot, fraction with trailing zeros
stripped, `0` kept when the fraction is empty). -/
def decimalOfScaled (n : Int) (shift : Nat) : String :=
  let sign := if n < 0 then "-" else ""
  let m := n.natAbs
  let base := 10 ^ shift
  let frac := stripZerosRight ((padZeros (toString (m % base)) shift).toList)
  sign ++ toString (m / base) ++ "." ++ (if frac.isEmpty then "0" else String.mk frac)

/-- `str(float(lit))` for a parsed float literal (exact-rational model of the
double round trip; no claim depends on the exotic e-notation regimes). -/
def pyFloatRepr (lit : String) : String :=
  match parsePyFloat lit with
  | some (neg, m, pow) =>
    let sgn : Int := if neg then -1 else 1
    if pow ≥ 0 then decimalOfScaled (sgn * (m * 10 ^ pow.toNat : Nat)) 0
    else decimalOfScaled (sgn * (m : Int)) (-pow).toNat
  | none => lit

/-- `str.isdigit()` restricted to ASCII digits (the source only meets ASCII). -/
def pyIsdigit (s : String) : Bool :=
  !s.toList.isEmpty && s.toList.all Char.isDigit

/-- `int(s)` on a string: optional surrounding whitespace, optional sign,
nonempty digit group with underscores between digits. -/
def pyIntOfStr (s : String) : Option Int :=
  let (neg, cs) := signSplit (pyStrip s).toList
  match digitGroup cs with
  | some ds =>
    if ds.isEmpty then none
    else some ((if neg then -1 else 1) * (digitsToNat ds : Int))
  | none => none

/-- `int(v)` on a parser value: identity on ints, `True↦1`, truncation toward
zero on floats, string parse on strings, `ValueError` otherwise. -/
def pyInt (v : Value) : Except PyErr Int :=
  match v with
  | Value.int i => Except.ok i
  | Value.bool b => Except.ok (if b then 1 else 0)
  | Value.str s =>
    match pyIntOfStr s with
    | some i => Except.ok i
    | none => Except.error PyErr.valueError
  | Value.float lit =>
    match parsePyFloat lit with
    | some (neg, m, pow) =>
      let mag : Nat := if pow ≥ 0 then m * 10 ^ pow.toNat else m / 10 ^ (-pow).toNat
      Except.ok ((if neg then -1 else 1) * (mag : Int))
    | none => Except.error PyErr.valueError

/-- Python truthiness of a parser value. -/
def pyTruthy (v : Value) : Bool :=
  match v with
  | Value.bool b => b
  | Value.int i => i ≠ 0
  | Value.str s => s ≠ ""
  | Value.float lit =>
    match parsePyFloat lit with
    | some (_, m, _) => m ≠ 0
    | none => true

/-- `str(v)` for a parser value (Python capitalises booleans). -/
def pyStr (v : Value) : String :=
  match v with
  | Value.bool b => if b then "True" else "False"
  | Value.int i => toString i
  | Value.float lit => pyFloatRepr lit
  | Value.str s => s

/-- Coercion applied by `parse_ops_query` to one stripped argument value
(`ffmpeg_service.py` lines 33–39): case-insensitive booleans first, then
all-digit integers, then floats for dotted values with silent fallback to
the original string. -/
def coerceValue (v : String) : Value :=
  if pyLower v = "true" then Value.bool true
  else if pyLower v = "false" then Value.bool false
  else if pyIsdigit v then Value.int (digitsToNat v.toList)
  else if strContains v '.' then
    (if (parsePyFloat v).isSome then Value.float v else Value.str v)
  else Value.str v

/-- Fold one comma-separated argument `part` into the descriptor dict
(`ffmpeg_service.py` lines 28–42): skip empties, split on the first `=`,
strip key and value, and record bare keys as boolean-true flags. -/
def parseArgInto (it : Dict) (part : String) : Dict :=
  if part = "" then it
  else if strContains part '=' then
    let kv := splitFirstChar part '='
    dictSet it (pyStrip kv.1) (coerceValue (pyStrip kv.2))
  else dictSet it (pyStrip part) (Value.bool true)

/-- Parse one raw operation string `name:key1=val1,...` into a descriptor
dict carrying the name under the `"op"` key (CPU backend: name is stripped
but not lowercased at parse time). -/
def parseOneOp (raw : String) : Dict :=
  let nv := splitFirstChar raw ':'
  let item : Dict := [("op", Value.str (pyStrip nv.1))]
  if nv.2 = "" then item
  else (splitAllChar nv.2 ',').foldl parseArgInto item

/-- `parse_ops_query` of the CPU backend: parse every nonempty raw string,
order preserved. -/
def parse_ops_query (params : List String) : List Dict :=
  params.foldl (fun acc raw => if raw = "" then acc else List.append acc [parseOneOp raw]) []

/-- `s.replace("\\","\\\\").replace(":","\\:").replace("'","\\'")` from
`_escape_drawtext`. -/
def escape_drawtext (s : String) : String :=
  String.mk ((s.toList.map fun c =>
    if c = '\\' then ['\\', '\\']
    else if c = ':' then ['\\', ':']
    else if c = '\x27' then ['\\', '\x27']
    else [c]).flatten)

/-- Clamp the configured opacity to `[0,100]` (`max(0, min(100, WM_OPACITY))`). -/
def clampOpacity (o : Int) : Nat :=
  (max 0 (min 100 o)).toNat

/-- `str(alpha)` where `alpha = clamp(o)/100.0` (exact decimal of a hundredth). -/
def alphaStr (o : Int) : String :=
  decimalOfScaled (clampOpacity o) 2

/-- `f"{alpha:.2f}"`: always two decimals. -/
def alpha2f (o : Int) : String :=
  let c := clampOpacity o
  if c = 100 then "1.00"
  else "0." ++ padZeros (toString c) 2

/-- `f"{alpha*0.6:.2f}"`: `6·c/1000` rounded to the nearest hundredth (the
third decimal of `6c/1000` is always even, so the float never sits on a
rounding boundary and the exact rounding matches the double's). -/
def stroke2f (o : Int) : String :=
  let h := (6 * clampOpacity o + 5) / 10
  if h ≥ 100 then "1.00" else "0." ++ padZeros (toString h) 2

/-- The drawtext watermark filter string (identical f-string in both
backends, `ffmpeg_service.py` CPU line 162 / GPU line 172). -/
def drawFilterOf (font text : String) (fontsize opacity inset : Int) : String :=
  "drawtext=fontfile=\x27" ++ font ++ "\x27:text=\x27" ++ escape_drawtext text ++
  "\x27:fontsize=" ++ toString fontsize ++
  ":fontcolor=white@" ++ alpha2f opacity ++
  ":borderw=2:bordercolor=black@" ++ stroke2f opacity ++
  ":x=w-tw-" ++ toString inset ++ ":y=h-th-" ++ toString inset

/-- The image-watermark filter-graph chain (identical in both backends):
fade the second input by opacity, overlay bottom-right with the inset. -/
def overlayChainOf (opacity inset : Int) : String :=
  "[1:v]format=rgba,colorchannelmixer=aa=" ++ alphaStr opacity ++
  "[wm];[0:v][wm]overlay=W-w-" ++ toString inset ++ ":H-h-" ++ toString inset ++ "[vout]"

/-- `f"rotate={deg * 3.14159265 / 180.0}:fillcolor=black"`; the radian value
`deg·174532925/10^10` is rendered as its exact decimal. -/
def rotateFilterStr (deg : Int) : String :=
  "rotate=" ++ decimalOfScaled (deg * 174532925) 10 ++ ":fillcolor=black"

/-- The list of filter strings a `rotate` op appends for `deg` (CPU lines
121–130 and GPU lines 135–143, identical): Python `%` on a positive divisor
is Euclidean, matching `Int.emod`. -/
def rotateFilters (deg : Int) : List String :=
  if deg % 90 = 0 then
    if deg = 90 then ["transpose=1"]
    else if deg = 180 then ["transpose=1,transpose=1"]
    else if deg = 270 then ["transpose=2"]
    else []
  else [rotateFilterStr deg]

/-- Process-wide configuration of the CPU backend (env-derived constants of
`CPU-Powered-POC/services/ffmpeg_service.py`; note: this backend has **no**
watermark-enable flag). `wmImageExists` models `os.path.exists(WM_IMAGE)`. -/
structure CpuConfig where
  ffmpeg : String
  wmText : String
  wmImage : String
  wmImageExists : Bool
  wmFont : String
  wmFontsize : Int
  wmOpacity : Int
  wmInset : Int
deriving Repr, DecidableEq

/-- Mutable loop state of the CPU `_apply_ops_and_watermark` op loop
(`complex_inputs` is only touched after the loop, so it lives in the
finaliser). -/
structure CpuState where
  cmd : List String
  vf : List String
  forcedExt : Option String
  isHls : Bool
  vcodec : List String
  acodec : List String
deriving Repr, DecidableEq

/-- Initial loop state: `cmd` is the incoming base command. -/
def cpuInit (cmd : List String) : CpuState :=
  { cmd := cmd, vf := [], forcedExt := none, isHls := false, vcodec := [], acodec := [] }

/-- `if not forced_ext` (Python falsiness: `None` or the empty string). -/
def extFalsy : Option String → Bool
  | none => true
  | some s => s = ""

/-- `forced_ext or "mp4"`. -/
def pyOrExt (o : Option String) (d : String) : String :=
  match o with
  | none => d
  | some s => if s = "" then d else s

/-- One iteration of the CPU op loop, after the name has been extracted and
lowercased (`ffmpeg_service.py` lines 85–143). -/
def cpu_step_named (st : CpuState) (op : Dict) (name : String) : Except PyErr CpuState :=
  if name = "format" then
    let fe := pyLower (pyStr (dictGetD op "type" (Value.str "mp4")))
    Except.ok { st with forcedExt := some fe,
                        isHls := if fe = "hls" ∨ fe = "m3u8" then true else st.isHls }
  else if name = "scale" ∨ name = "resize" then
    let w := dictGetD op "width" (Value.int (-2))
    let h := dictGetD op "height" (Value.int (-2))
    Except.ok { st with vf := st.vf ++ ["scale=" ++ pyStr w ++ ":" ++ pyStr h] }
  else if name = "fps" then
    Except.ok { st with vf := st.vf ++ ["fps=" ++ pyStr (dictGetD op "value" (Value.int 30))] }
  else if name = "crop" then
    let w := dictGetD op "width" (Value.str "iw")
    let h := dictGetD op "height" (Value.str "ih")
    let x := dictGetD op "x" (Value.str "(iw-ow)/2")
    let y := dictGetD op "y" (Value.str "(ih-oh)/2")
    Except.ok { st with vf := st.vf ++
      ["crop=" ++ pyStr w ++ ":" ++ pyStr h ++ ":" ++ pyStr x ++ ":" ++ pyStr y] }
  else if name = "bitrate" then
    let st₁ := match dictGet op "video" with
      | some v => { st with vcodec := st.vcodec ++ ["-b:v", pyStr v] }
      | none => st
    let st₂ := match dictGet op "audio" with
      | some v => { st₁ with acodec := st₁.acodec ++ ["-b:a", pyStr v] }
      | none => st₁
    Except.ok st₂
  else if name = "crf" then
    Except.ok { st with vcodec := st.vcodec ++ ["-crf", pyStr (dictGetD op "value" (Value.int 23))] }
  else if name = "preset" then
    Except.ok { st with vcodec := st.vcodec ++ ["-preset", pyStr (dictGetD op "value" (Value.str "veryfast"))] }
  else if name = "audio" then
    if pyTruthy (dictGetD op "remove" (Value.bool false)) then
      Except.ok { st with cmd := st.cmd ++ ["-an"] }
    else Except.ok st
  else if name = "rotate" then
    match pyInt (dictGetD op "degrees" (Value.int 0)) with
    | Except.error e => Except.error e
    | Except.ok deg => Except.ok { st with vf := st.vf ++ rotateFilters deg }
  else if name = "grayscale" ∨ name = "monochrome" then
    Except.ok { st with vf := st.vf ++ ["format=gray"] }
  else if name = "thumbnail" then
    let t := dictGetD op "at" (Value.int 1)
    Except.ok { st with cmd := st.cmd ++ ["-ss", pyStr t, "-frames:v", "1"],
                        forcedExt := if extFalsy st.forcedExt then some "png" else st.forcedExt }
  else Except.ok st

/-- `op.get("op","").lower()`: raises `AttributeError` when the `"op"` entry
is not a string (only reachable through a crafted `op=` argument key). -/
def cpuOpName (op : Dict) : Except PyErr String :=
  match dictGetD op "op" (Value.str "") with
  | Value.str s => Except.ok (pyLower s)
  | _ => Except.error PyErr.attributeError

/-- One iteration of the CPU op loop. -/
def cpu_step (st : CpuState) (op : Dict) : Except PyErr CpuState :=
  match cpuOpName op with
  | Except.error e => Except.error e
  | Except.ok name => cpu_step_named st op name

/-- The CPU op loop over the whole descriptor list. -/
def cpu_run_ops (st : CpuState) : List Dict → Except PyErr CpuState
  | [] => Except.ok st
  | op :: rest =>
    match cpu_step st op with
    | Except.error e => Except.error e
    | Except.ok st' => cpu_run_ops st' rest

/-- Return value of the CPU `_apply_ops_and_watermark`
(`cmd, forced_ext, vf_or_complex-as-3-tuple, is_hls`). -/
structure CpuOut where
  cmd : List String
  forcedExt : Option String
  complexTuple : Option (String × String × String)
  isHls : Bool
deriving Repr, DecidableEq

/-- Watermark compositing and command assembly after the op loop (CPU lines
145–177).  The image graph is used iff an image is configured **and**
exists; the source's returned 3-tuple drops the graph's `"[vout]"` element. -/
def cpu_finalize (cfg : CpuConfig) (st : CpuState) : CpuOut :=
  if cfg.wmImage ≠ "" ∧ cfg.wmImageExists then
    let chain := overlayChainOf cfg.wmOpacity cfg.wmInset
    let cmd := st.cmd ++ ["-map", "0:a?"] ++ ["-i", cfg.wmImage] ++ st.vcodec ++ st.acodec
    { cmd := cmd, forcedExt := st.forcedExt,
      complexTuple := some ("-filter_complex", chain, "-map"), isHls := st.isHls }
  else
    let vf := st.vf ++ [drawFilterOf cfg.wmFont cfg.wmText cfg.wmFontsize cfg.wmOpacity cfg.wmInset]
    let cmd := st.cmd ++ ["-vf", String.intercalate "," vf] ++ st.vcodec ++ st.acodec
    { cmd := cmd, forcedExt := st.forcedExt, complexTuple := none, isHls := st.isHls }

/-- The CPU `_apply_ops_and_watermark` (its `in_path`/`tmpdir` parameters are
unused in the source body). -/
def cpu_apply_ops_and_watermark (cfg : CpuConfig) (cmd : List String) (ops : List Dict) :
    Except PyErr CpuOut :=
  match cpu_run_ops (cpuInit cmd) ops with
  | Except.error e => Except.error e
  | Except.ok st => Except.ok (cpu_finalize cfg st)

/-- The CPU `_base_cmd`. -/
def cpu_base_cmd (ffmpeg inPath : String) : List String :=
  [ffmpeg, "-hide_banner", "-nostdin", "-y", "-loglevel", "error", "-i", inPath]

/-- The CPU `_choose_container_and_codecs` (lines 50–63): pure function from
target format to `(container, codec args)`. -/
def cpu_choose_container_and_codecs (fmt : String) : String × List String :=
  let f := pyLower (if fmt = "" then "mp4" else fmt)
  if f = "mp4" ∨ f = "m4v" ∨ f = "mov" then
    ("mp4", ["-c:v", "libx264", "-c:a", "aac", "-movflags", "+faststart"])
  else if f = "webm" then
    ("webm", ["-c:v", "libvpx-vp9", "-row-mt", "1", "-c:a", "libopus"])
  else if f = "mkv" then
    ("mkv", ["-c:v", "libx264", "-c:a", "aac"])
  else if f = "gif" then
    ("gif", ["-an", "-loop", "0"])
  else if f = "hls" ∨ f = "m3u8" then
    ("m3u8", ["-c:v", "libx264", "-c:a", "aac", "-f", "hls", "-hls_time", "4", "-hls_list_size", "0"])
  else
    ("mp4", ["-c:v", "libx264", "-c:a", "aac", "-movflags", "+faststart"])

/-- The media-type lookup of `process_video` (identical dict in both
backends), keyed on the chosen container. -/
def mediaTypeOf (container : String) : String :=
  if container = "mp4" then "video/mp4"
  else if container = "webm" then "video/webm"
  else if container = "mkv" then "video/x-matroska"
  else if container = "mov" then "video/quicktime"
  else if container = "gif" then "image/gif"
  else if container = "m3u8" then "application/vnd.apple.mpegurl"
  else "application/octet-stream"

/-- The single deliverable of a job: one transcoded file, or one archive of a
segmented (HLS) output — the two early-return branches of `process_video`. -/
inductive JobOutput where
  | archive (finalCmd : List String) (hlsDir playlist segTmpl zipPath : String) (mediaType : String)
  | single (finalCmd : List String) (outPath container mediaType : String)
deriving Repr, DecidableEq

/-- The media type a `JobOutput` is returned with. -/
def JobOutput.mediaTypeOut : JobOutput → String
  | JobOutput.archive _ _ _ _ _ m => m
  | JobOutput.single _ _ _ m => m

/-- The container a single-file deliverable was resolved to (archives have
none; a placeholder is returned for them). -/
def JobOutput.containerOut : JobOutput → String
  | JobOutput.archive _ _ _ _ _ _ => ""
  | JobOutput.single _ _ c _ => c

/-- `True` iff the job deliverable is the segmented archive. -/
def JobOutput.isArchive : JobOutput → Bool
  | JobOutput.archive _ _ _ _ _ _ => true
  | JobOutput.single _ _ _ _ => false

/-- The CPU `process_video` (lines 193–244) with the I/O-generated unique
names (`uuid4` fragments) passed in as `hlsName`/`zipName`/`outName`. -/
def cpu_process_video (cfg : CpuConfig) (inPath tmpdir hlsName zipName outName : String)
    (ops : List Dict) : Except PyErr JobOutput :=
  match cpu_apply_ops_and_watermark cfg (cpu_base_cmd cfg.ffmpeg inPath) ops with
  | Except.error e => Except.error e
  | Except.ok out =>
    if out.isHls then
      let hlsDir := tmpdir ++ "/hls-" ++ hlsName
      let playlist := hlsDir ++ "/index.m3u8"
      let segTmpl := hlsDir ++ "/seg_%04d.ts"
      let hlsArgs := (cpu_choose_container_and_codecs "hls").2
      let final := out.cmd ++
        (match out.complexTuple with
         | some t => [t.1, t.2.1, t.2.2]
         | none => []) ++
        hlsArgs ++ ["-hls_segment_filename", segTmpl, playlist]
      Except.ok (JobOutput.archive final hlsDir playlist segTmpl
        (tmpdir ++ "/hls_" ++ zipName ++ ".zip") "application/zip")
    else
      let outExt := pyOrExt out.forcedExt "mp4"
      let cc := cpu_choose_container_and_codecs outExt
      let outPath := tmpdir ++ "/out-" ++ outName ++ "." ++ cc.1
      let final := out.cmd ++
        (match out.complexTuple with
         | some t => [t.1, t.2.1, t.2.2]
         | none => []) ++
        cc.2 ++ [outPath]
      Except.ok (JobOutput.single final outPath cc.1 (mediaTypeOf cc.1))

/-- Process-wide configuration of the GPU backend
(`Integrated-GPU-Powered-POC/services/ffmpeg_service.py` lines 5–19):
encoder mode, default quality/preset (kept as the env strings the source
reads), and the watermark settings **including the `WATERMARK_ENABLED`
flag that the CPU backend lacks**. -/
structure GpuConfig where
  ffmpeg : String
  encoder : String
  defaultCrf : String
  defaultPreset : String
  wmEnabled : Bool
  wmText : String
  wmImage : String
  wmImageExists : Bool
  wmFont : String
  wmFontsize : Int
  wmOpacity : Int
  wmInset : Int
deriving Repr, DecidableEq

/-- Mutable loop state of the GPU `_apply_ops_and_watermark` op loop
(`used_scale` is set but never read in the source). -/
structure GpuState where
  cmd : List String
  vf : List String
  forcedExt : Option String
  isHls : Bool
  vcodec : List String
  acodec : List String
  usedScale : Bool
deriving Repr, DecidableEq

/-- Initial GPU loop state. -/
def gpuInit (cmd : List String) : GpuState :=
  { cmd := cmd, vf := [], forcedExt := none, isHls := false,
    vcodec := [], acodec := [], usedScale := false }

/-- One iteration of the GPU op loop (lines 102–158).  The GPU backend does
not lowercase or `str`-coerce the name: `op.get("op","")` is compared by
Python `==`, which across types only matches equal strings. -/
def gpu_step (cfg : GpuConfig) (st : GpuState) (op : Dict) : Except PyErr GpuState :=
  let name := dictGetD op "op" (Value.str "")
  if name = Value.str "format" then
    let fe := pyLower (pyStr (dictGetD op "type" (Value.str "mp4")))
    Except.ok { st with forcedExt := some fe,
                        isHls := if fe = "hls" ∨ fe = "m3u8" then true else st.isHls }
  else if name = Value.str "resize" ∨ name = Value.str "scale" then
    let w := dictGetD op "width" (Value.int (-2))
    let h := dictGetD op "height" (Value.int (-2))
    Except.ok { st with vf := st.vf ++ ["scale=" ++ pyStr w ++ ":" ++ pyStr h],
                        usedScale := true }
  else if name = Value.str "fps" then
    Except.ok { st with vf := st.vf ++ ["fps=" ++ pyStr (dictGetD op "value" (Value.int 30))] }
  else if name = Value.str "crop" then
    let w := dictGetD op "width" (Value.str "iw")
    let h := dictGetD op "height" (Value.str "ih")
    let x := dictGetD op "x" (Value.str "(iw-ow)/2")
    let y := dictGetD op "y" (Value.str "(ih-oh)/2")
    Except.ok { st with vf := st.vf ++
      ["crop=" ++ pyStr w ++ ":" ++ pyStr h ++ ":" ++ pyStr x ++ ":" ++ pyStr y] }
  else if name = Value.str "bitrate" then
    let st₁ := match dictGet op "video" with
      | some v => { st with vcodec := st.vcodec ++ ["-b:v", pyStr v] }
      | none => st
    let st₂ := match dictGet op "audio" with
      | some v => { st₁ with acodec := st₁.acodec ++ ["-b:a", pyStr v] }
      | none => st₁
    Except.ok st₂
  else if name = Value.str "crf" then
    let v := pyStr (dictGetD op "value" (Value.int 23))
    Except.ok { st with vcodec := st.vcodec ++
      (if cfg.encoder ≠ "h264_vaapi" then ["-crf", v] else ["-qp", v]) }
  else if name = Value.str "preset" ∧ cfg.encoder ≠ "h264_vaapi" then
    Except.ok { st with vcodec := st.vcodec ++
      ["-preset", pyStr (dictGetD op "value" (Value.str "veryfast"))] }
  else if name = Value.str "audio" ∧ pyTruthy (dictGetD op "remove" (Value.bool false)) then
    Except.ok { st with cmd := st.cmd ++ ["-an"] }
  else if name = Value.str "rotate" then
    match pyInt (dictGetD op "degrees" (Value.int 0)) with
    | Except.error e => Except.error e
    | Except.ok deg => Except.ok { st with vf := st.vf ++ rotateFilters deg }
  else if name = Value.str "grayscale" ∨ name = Value.str "monochrome" then
    Except.ok { st with vf := st.vf ++ ["format=gray"] }
  else if name = Value.str "thumbnail" then
    let t := dictGetD op "at" (Value.int 1)
    Except.ok { st with cmd := st.cmd ++ ["-ss", pyStr t, "-frames:v", "1"],
                        forcedExt := if extFalsy st.forcedExt then some "png" else st.forcedExt }
  else if name = Value.str "fast" then
    Except.ok { st with vcodec := st.vcodec ++
      (if cfg.encoder = "h264_vaapi" then ["-qp", "28"]
       else ["-preset", "ultrafast", "-crf", "28"]) }
  else Except.ok st

/-- The GPU op loop over the whole descriptor list. -/
def gpu_run_ops (cfg : GpuConfig) (st : GpuState) : List Dict → Except PyErr GpuState
  | [] => Except.ok st
  | op :: rest =>
    match gpu_step cfg st op with
    | Except.error e => Except.error e
    | Except.ok st' => gpu_run_ops cfg st' rest

/-- Return value of the GPU `_apply_ops_and_watermark`
(`cmd, forced_ext, vf_or_complex, is_hls, vf_and_codecs`). -/
structure GpuOut where
  cmd : List String
  forcedExt : Option String
  complexTuple : Option (String × String × String)
  isHls : Bool
  vfCodecs : List String
deriving Repr, DecidableEq

/-- Watermark compositing and return assembly of the GPU backend (lines
160–187).  The watermark block runs **only when `WM_ENABLED`**; afterwards,
in `h264_vaapi` mode, `format=nv12,hwupload` is appended to the linear `-vf`
chain only when the image-graph path was *not* taken (the source comment
acknowledges the graph output stays on the CPU). -/
def gpu_finalize (cfg : GpuConfig) (st : GpuState) : GpuOut :=
  let wm :=
    if cfg.wmEnabled then
      if cfg.wmImage ≠ "" ∧ cfg.wmImageExists then
        (st.vf, some ("-filter_complex", overlayChainOf cfg.wmOpacity cfg.wmInset, "-map"))
      else
        (st.vf ++ [drawFilterOf cfg.wmFont cfg.wmText cfg.wmFontsize cfg.wmOpacity cfg.wmInset],
         none)
    else (st.vf, none)
  let vf := if cfg.encoder = "h264_vaapi" ∧ wm.2 = none then
              wm.1 ++ ["format=nv12,hwupload"]
            else wm.1
  { cmd := st.cmd, forcedExt := st.forcedExt, complexTuple := wm.2, isHls := st.isHls,
    vfCodecs := (if vf ≠ [] then ["-vf", String.intercalate "," vf] else []) ++
                st.vcodec ++ st.acodec ++
                (if wm.2 = none then [] else ["[vout]"]) }

/-- The GPU `_apply_ops_and_watermark`. -/
def gpu_apply_ops_and_watermark (cfg : GpuConfig) (cmd : List String) (ops : List Dict) :
    Except PyErr GpuOut :=
  match gpu_run_ops cfg (gpuInit cmd) ops with
  | Except.error e => Except.error e
  | Except.ok st => Except.ok (gpu_finalize cfg st)

/-- The GPU `_base_cmd` (lines 45–50): in `h264_vaapi` mode it references the
undefined module name `VAAPI_DEVICE`, so it raises `NameError`. -/
def gpu_base_cmd (cfg : GpuConfig) (inPath : String) : Except PyErr (List String) :=
  if cfg.encoder = "h264_vaapi" then Except.error PyErr.nameError
  else Except.ok [cfg.ffmpeg, "-hide_banner", "-nostdin", "-y", "-loglevel", "error", "-i", inPath]

/-- The GPU `_choose_container_and_codecs` (lines 55–91). -/
def gpu_choose_container_and_codecs (cfg : GpuConfig) (fmt : String) : String × List String :=
  let f := pyLower (if fmt = "" then "mp4" else fmt)
  let threads := ["-threads", "0"]
  if f = "mp4" ∨ f = "m4v" ∨ f = "mov" then
    if cfg.encoder = "h264_vaapi" then
      ("mp4", threads ++ ["-c:v", "h264_vaapi", "-b:v", "0", "-qp", cfg.defaultCrf,
                          "-c:a", "aac", "-movflags", "+faststart"])
    else
      ("mp4", threads ++ ["-c:v", "libx264", "-preset", cfg.defaultPreset, "-crf", cfg.defaultCrf,
                          "-c:a", "aac", "-movflags", "+faststart", "-pix_fmt", "yuv420p"])
  else if f = "webm" then
    ("webm", threads ++ ["-c:v", "libvpx-vp9", "-row-mt", "1", "-c:a", "libopus"])
  else if f = "mkv" then
    let args := if cfg.encoder = "h264_vaapi" then
                  ["-c:v", "h264_vaapi", "-b:v", "0", "-qp", cfg.defaultCrf]
                else
                  ["-c:v", "libx264", "-preset", cfg.defaultPreset, "-crf", cfg.defaultCrf]
    ("mkv", threads ++ args ++ ["-c:a", "aac"])
  else if f = "gif" then
    ("gif", threads ++ ["-an", "-loop", "0"])
  else if f = "hls" ∨ f = "m3u8" then
    let args := if cfg.encoder = "h264_vaapi" then
                  ["-c:v", "h264_vaapi", "-b:v", "0", "-qp", cfg.defaultCrf]
                else
                  ["-c:v", "libx264", "-preset", cfg.defaultPreset, "-crf", cfg.defaultCrf]
    ("m3u8", threads ++ args ++ ["-c:a", "aac", "-f", "hls", "-hls_time", "4", "-hls_list_size", "0"])
  else
    ("mp4", threads ++ ["-c:v", "libx264", "-preset", cfg.defaultPreset, "-crf", cfg.defaultCrf,
                        "-c:a", "aac", "-movflags", "+faststart", "-pix_fmt", "yuv420p"])

/-- The GPU `process_video` (lines 203–246); the filter-graph splice is
`[-filter_complex, chain, -map, "[vout]", -map, "0:a?"]` and `vf_and_codecs`
is appended next, before the container codec args and the output target. -/
def gpu_process_video (cfg : GpuConfig) (inPath tmpdir hlsName zipName outName : String)
    (ops : List Dict) : Except PyErr JobOutput :=
  match gpu_base_cmd cfg inPath with
  | Except.error e => Except.error e
  | Except.ok base =>
    match gpu_apply_ops_and_watermark cfg base ops with
    | Except.error e => Except.error e
    | Except.ok out =>
      let complexPart := match out.complexTuple with
        | some t => [t.1, t.2.1, t.2.2, "[vout]", "-map", "0:a?"]
        | none => []
      if pyOrExt out.forcedExt "" = "hls" ∨ pyOrExt out.forcedExt "" = "m3u8" ∨ out.isHls then
        let hlsDir := tmpdir ++ "/hls-" ++ hlsName
        let playlist := hlsDir ++ "/index.m3u8"
        let segTmpl := hlsDir ++ "/seg_%04d.ts"
        let cc := gpu_choose_container_and_codecs cfg "hls"
        let final := out.cmd ++ complexPart ++ out.vfCodecs ++ cc.2 ++
          ["-hls_segment_filename", segTmpl, playlist]
        Except.ok (JobOutput.archive final hlsDir playlist segTmpl
          (tmpdir ++ "/hls_" ++ zipName ++ ".zip") "application/zip")
      else
        let outExt := pyOrExt out.forcedExt "mp4"
        let cc := gpu_choose_container_and_codecs cfg outExt
        let outPath := tmpdir ++ "/out-" ++ outName ++ "." ++ cc.1
        let final := out.cmd ++ complexPart ++ out.vfCodecs ++ cc.2 ++ [outPath]
        Except.ok (JobOutput.single final outPath cc.1 (mediaTypeOf cc.1))

/-- The operation names the CPU compiler dispatches on (lowercased). -/
def cpuRecognizedNames : List String :=
  ["format", "scale", "resize", "fps", "crop", "bitrate", "crf", "preset",
   "audio", "rotate", "grayscale", "monochrome", "thumbnail"]

/-- The operation names the GPU compiler dispatches on (compared verbatim). -/
def gpuRecognizedNames : List String :=
  ["format", "resize", "scale", "fps", "crop", "bitrate", "crf", "preset",
   "audio", "rotate", "grayscale", "monochrome", "thumbnail", "fast"]

/-- A sample CPU configuration (text watermark) for concrete evaluations. -/
def sampleCpuCfg : CpuConfig :=
  { ffmpeg := "ffmpeg", wmText := "Demo", wmImage := "", wmImageExists := false,
    wmFont := "/font.ttf", wmFontsize := 28, wmOpacity := 35, wmInset := 12 }

/-- A sample GPU configuration (software encoder, text watermark). -/
def sampleGpuCfg : GpuConfig :=
  { ffmpeg := "ffmpeg", encoder := "libx264", defaultCrf := "23", defaultPreset := "veryfast",
    wmEnabled := true, wmText := "Demo", wmImage := "", wmImageExists := false,
    wmFont := "/font.ttf", wmFontsize := 28, wmOpacity := 35, wmInset := 12 }

/-- A sample GPU configuration in hardware mode with an image watermark. -/
def sampleGpuCfgVaapi : GpuConfig :=
  { ffmpeg := "ffmpeg", encoder := "h264_vaapi", defaultCrf := "23", defaultPreset := "veryfast",
    wmEnabled := true, wmText := "Demo", wmImage := "/wm.png", wmImageExists := true,
    wmFont := "/font.ttf", wmFontsize := 28, wmOpacity := 35, wmInset := 12 }

theorem cpu_step_named_unknown (st : CpuState) (op : Dict) (s : String)
    (hunk : s ∉ cpuRecognizedNames) : cpu_step_named st op s = Except.ok st := by
  simp only [cpuRecognizedNames, List.mem_cons, List.not_mem_nil, or_false, not_or] at hunk
  obtain ⟨h1, h2, h3, h4, h5, h6, h7, h8, h9, h10, h11, h12, h13⟩ := hunk
  simp [cpu_step_named, h1, h2, h3, h4, h5, h6, h7, h8, h9, h10, h11, h12, h13]

theorem cpu_step_isHls_mono (st st' : CpuState) (op : Dict)
    (h : cpu_step st op = Except.ok st') (hh : st.isHls = true) : st'.isHls = true := by
  simp only [cpu_step] at h
  cases hn : cpuOpName op with
  | error e => rw [hn] at h; cases h
  | ok n =>
    rw [hn] at h
    simp only [] at h
    by_cases hm : n ∈ cpuRecognizedNames
    · simp only [cpuRecognizedNames, List.mem_cons, List.not_mem_nil, or_false] at hm
      rcases hm with rfl|rfl|rfl|rfl|rfl|rfl|rfl|rfl|rfl|rfl|rfl|rfl|rfl
      · simp only [cpu_step_named, String.reduceEq, reduceIte] at h
        injection h with h₂; subst h₂; simp [hh]
      · simp only [cpu_step_named, String.reduceEq, reduceIte, or_true, true_or,
          or_false, false_or] at h
        injection h with h₂; subst h₂; exact hh
      · simp only [cpu_step_named, String.reduceEq, reduceIte, or_true, true_or,
          or_false, false_or] at h
        injection h with h₂; subst h₂; exact hh
      · simp only [cpu_step_named, String.reduceEq, reduceIte, or_true, true_or,
          or_false, false_or] at h
        injection h with h₂; subst h₂; exact hh
      · simp only [cpu_step_named, String.reduceEq, reduceIte, or_true, true_or,
          or_false, false_or] at h
        injection h with h₂; subst h₂; exact hh
      · -- bitrate
        rcases hv : dictGet op "video" with _ | v <;>
          rcases ha : dictGet op "audio" with _ | a <;>
          simp only [cpu_step_named, String.reduceEq, reduceIte, or_true, true_or,
            or_false, false_or, hv, ha] at h <;>
          (injection h with h₂; subst h₂; exact hh)
      · simp only [cpu_step_named, String.reduceEq, reduceIte, or_true, true_or,
          or_false, false_or] at h
        injection h with h₂; subst h₂; exact hh
      · simp only [cpu_step_named, String.reduceEq, reduceIte, or_true, true_or,
          or_false, false_or] at h
        injection h with h₂; subst h₂; exact hh
      · -- audio
        by_cases ht : pyTruthy (dictGetD op "remove" (Value.bool false)) = true <;>
          simp only [cpu_step_named, String.reduceEq, reduceIte, or_true, true_or,
            or_false, false_or, ht, if_true, if_false, Bool.false_eq_true] at h <;>
          (injection h with h₂; subst h₂; exact hh)
      · -- rotate
        rcases hd : pyInt (dictGetD op "degrees" (Value.int 0)) with e | deg <;>
          simp only [cpu_step_named, String.reduceEq, reduceIte, or_true, true_or,
            or_false, false_or, hd] at h
        · exact Except.noConfusion h
        · injection h with h₂; subst h₂; exact hh
      · simp only [cpu_step_named, String.reduceEq, reduceIte, or_true, true_or,
          or_false, false_or] at h
        injection h with h₂; subst h₂; exact hh
      · simp only [cpu_step_named, String.reduceEq, reduceIte, or_true, true_or,
          or_false, false_or] at h
        injection h with h₂; subst h₂; exact hh
      · -- thumbnail
        simp only [cpu_step_named, String.reduceEq, reduceIte, or_true, true_or,
          or_false, false_or] at h
        injection h with h₂; subst h₂; exact hh
    · rw [cpu_step_named_unknown st op n hm] at h
      injection h with h₂; subst h₂; exact hh

theorem cpu_step_forcedExt_shape (st st' : CpuState) (op : Dict)
    (h : cpu_step st op = Except.ok st') :
    st'.forcedExt = st.forcedExt
    ∨ (cpuOpName op = Except.ok "format" ∧
       st'.forcedExt = some (pyLower (pyStr (dictGetD op "type" (Value.str "mp4")))))
    ∨ (cpuOpName op = Except.ok "thumbnail" ∧
       st'.forcedExt = (if extFalsy st.forcedExt then some "png" else st.forcedExt)) := by
  simp only [cpu_step] at h
  cases hn : cpuOpName op with
  | error e => rw [hn] at h; cases h
  | ok n =>
    rw [hn] at h
    simp only [] at h
    by_cases hm : n ∈ cpuRecognizedNames
    · simp only [cpuRecognizedNames, List.mem_cons, List.not_mem_nil, or_false] at hm
      rcases hm with rfl|rfl|rfl|rfl|rfl|rfl|rfl|rfl|rfl|rfl|rfl|rfl|rfl
      · -- format
        simp only [cpu_step_named, String.reduceEq, reduceIte] at h
        injection h with h₂; subst h₂
        exact Or.inr (Or.inl ⟨rfl, rfl⟩)
      · simp only [cpu_step_named, String.reduceEq, reduceIte, or_true, true_or,
          or_false, false_or] at h
        injection h with h₂; subst h₂; exact Or.inl rfl
      · simp only [cpu_step_named, String.reduceEq, reduceIte, or_true, true_or,
          or_false, false_or] at h
        injection h with h₂; subst h₂; exact Or.inl rfl
      · simp only [cpu_step_named, String.reduceEq, reduceIte, or_true, true_or,
          or_false, false_or] at h
        injection h with h₂; subst h₂; exact Or.inl rfl
      · simp only [cpu_step_named, String.reduceEq, reduceIte, or_true, true_or,
          or_false, false_or] at h
        injection h with h₂; subst h₂; exact Or.inl rfl
      · rcases hv : dictGet op "video" with _ | v <;>
          rcases ha : dictGet op "audio" with _ | a <;>
          simp only [cpu_step_named, String.reduceEq, reduceIte, or_true, true_or,
            or_false, false_or, hv, ha] at h <;>
          (injection h with h₂; subst h₂; exact Or.inl rfl)
      · simp only [cpu_step_named, String.reduceEq, reduceIte, or_true, true_or,
          or_false, false_or] at h
        injection h with h₂; subst h₂; exact Or.inl rfl
      · simp only [cpu_step_named, String.reduceEq, reduceIte, or_true, true_or,
          or_false, false_or] at h
        injection h with h₂; subst h₂; exact Or.inl rfl
      · by_cases ht : pyTruthy (dictGetD op "remove" (Value.bool false)) = true <;>
          simp only [cpu_step_named, String.reduceEq, reduceIte, or_true, true_or,
            or_false, false_or, ht, if_true, if_false, Bool.false_eq_true] at h <;>
          (injection h with h₂; subst h₂; exact Or.inl rfl)
      · rcases hd : pyInt (dictGetD op "degrees" (Value.int 0)) with e | deg <;>
          simp only [cpu_step_named, String.reduceEq, reduceIte, or_true, true_or,
            or_false, false_or, hd] at h
        · exact Except.noConfusion h
        · injection h with h₂; subst h₂; exact Or.inl rfl
      · simp only [cpu_step_named, String.reduceEq, reduceIte, or_true, true_or,
          or_false, false_or] at h
        injection h with h₂; subst h₂; exact Or.inl rfl
      · simp only [cpu_step_named, String.reduceEq, reduceIte, or_true, true_or,
          or_false, false_or] at h
        injection h with h₂; subst h₂; exact Or.inl rfl
      · -- thumbnail
        simp only [cpu_step_named, String.reduceEq, reduceIte, or_true, true_or,
          or_false, false_or] at h
        injection h with h₂; subst h₂
        exact Or.inr (Or.inr ⟨rfl, rfl⟩)
    · rw [cpu_step_named_unknown st op n hm] at h
      injection h with h₂; subst h₂; exact Or.inl rfl

theorem gpu_step_unknown_str (cfg : GpuConfig) (st : GpuState) (op : Dict) (s : String)
    (hv : dictGetD op "op" (Value.str "") = Value.str s)
    (hunk : s ∉ gpuRecognizedNames) : gpu_step cfg st op = Except.ok st := by
  simp only [gpuRecognizedNames, List.mem_cons, List.not_mem_nil, or_false, not_or] at hunk
  obtain ⟨h1, h2, h3, h4, h5, h6, h7, h8, h9, h10, h11, h12, h13, h14⟩ := hunk
  simp [gpu_step, hv, h1, h2, h3, h4, h5, h6, h7, h8, h9, h10, h11, h12, h13, h14]

theorem gpu_step_nonstr (cfg : GpuConfig) (st : GpuState) (op : Dict)
    (hv : ∀ s, dictGetD op "op" (Value.str "") ≠ Value.str s) :
    gpu_step cfg st op = Except.ok st := by
  rcases hx : dictGetD op "op" (Value.str "") with b | i | l | s
  · simp [gpu_step, hx]
  · simp [gpu_step, hx]
  · simp [gpu_step, hx]
  · exact absurd hx (hv s)

theorem gpu_step_isHls_mono (cfg : GpuConfig) (st st' : GpuState) (op : Dict)
    (h : gpu_step cfg st op = Except.ok st') (hh : st.isHls = true) : st'.isHls = true := by
  rcases hx : dictGetD op "op" (Value.str "") with b | i | l | s
  · rw [gpu_step_nonstr cfg st op (by simp [hx])] at h
    injection h with h₂; subst h₂; exact hh
  · rw [gpu_step_nonstr cfg st op (by simp [hx])] at h
    injection h with h₂; subst h₂; exact hh
  · rw [gpu_step_nonstr cfg st op (by simp [hx])] at h
    injection h with h₂; subst h₂; exact hh
  · by_cases hm : s ∈ gpuRecognizedNames
    · simp only [gpuRecognizedNames, List.mem_cons, List.not_mem_nil, or_false] at hm
      rcases hm with rfl|rfl|rfl|rfl|rfl|rfl|rfl|rfl|rfl|rfl|rfl|rfl|rfl|rfl
      · -- format
        simp only [gpu_step, hx, Value.str.injEq, String.reduceEq, reduceIte,
          or_true, true_or, or_false, false_or, if_true] at h
        injection h with h₂; subst h₂; simp [hh]
      · simp only [gpu_step, hx, Value.str.injEq, String.reduceEq, reduceIte,
          or_true, true_or, or_false, false_or] at h
        injection h with h₂; subst h₂; exact hh
      · simp only [gpu_step, hx, Value.str.injEq, String.reduceEq, reduceIte,
          or_true, true_or, or_false, false_or] at h
        injection h with h₂; subst h₂; exact hh
      · simp only [gpu_step, hx, Value.str.injEq, String.reduceEq, reduceIte,
          or_true, true_or, or_false, false_or] at h
        injection h with h₂; subst h₂; exact hh
      · simp only [gpu_step, hx, Value.str.injEq, String.reduceEq, reduceIte,
          or_true, true_or, or_false, false_or] at h
        injection h with h₂; subst h₂; exact hh
      · -- bitrate
        rcases hvv : dictGet op "video" with _ | v <;>
          rcases ha : dictGet op "audio" with _ | a <;>
          simp only [gpu_step, hx, Value.str.injEq, String.reduceEq, reduceIte,
            or_true, true_or, or_false, false_or, hvv, ha] at h <;>
          (injection h with h₂; subst h₂; exact hh)
      · simp only [gpu_step, hx, Value.str.injEq, String.reduceEq, reduceIte,
          or_true, true_or, or_false, false_or] at h
        injection h with h₂; subst h₂; exact hh
      · -- preset
        by_cases he : cfg.encoder = "h264_vaapi" <;>
          simp only [gpu_step, hx, Value.str.injEq, String.reduceEq, reduceIte,
            or_true, true_or, or_false, false_or, he, ne_eq, not_true_eq_false,
            not_false_eq_true, and_true, and_false, if_true, if_false] at h <;>
          (injection h with h₂; subst h₂; exact hh)
      · -- audio
        by_cases ht : pyTruthy (dictGetD op "remove" (Value.bool false)) = true <;>
          simp only [gpu_step, hx, Value.str.injEq, String.reduceEq, reduceIte,
            or_true, true_or, or_false, false_or, ht, if_true, if_false,
            Bool.false_eq_true, and_true, and_false] at h <;>
          (injection h with h₂; subst h₂; exact hh)
      · -- rotate
        rcases hd : pyInt (dictGetD op "degrees" (Value.int 0)) with e | deg <;>
          simp only [gpu_step, hx, Value.str.injEq, String.reduceEq, reduceIte,
            or_true, true_or, or_false, false_or, hd] at h
        · exact Except.noConfusion h
        · injection h with h₂; subst h₂; exact hh
      · simp only [gpu_step, hx, Value.str.injEq, String.reduceEq, reduceIte,
          or_true, true_or, or_false, false_or] at h
        injection h with h₂; subst h₂; exact hh
      · simp only [gpu_step, hx, Value.str.injEq, String.reduceEq, reduceIte,
          or_true, true_or, or_false, false_or] at h
        injection h with h₂; subst h₂; exact hh
      · simp only [gpu_step, hx, Value.str.injEq, String.reduceEq, reduceIte,
          or_true, true_or, or_false, false_or] at h
        injection h with h₂; subst h₂; exact hh
      · -- fast
        simp only [gpu_step, hx, Value.str.injEq, String.reduceEq, reduceIte,
          or_true, true_or, or_false, false_or] at h
        injection h with h₂; subst h₂; exact hh
    · rw [gpu_step_unknown_str cfg st op s hx hm] at h
      injection h with h₂; subst h₂; exact hh

theorem cpu_step_format_eq (st : CpuState) (op : Dict)
    (hn : cpuOpName op = Except.ok "format") :
    cpu_step st op = Except.ok
      { st with forcedExt := some (pyLower (pyStr (dictGetD op "type" (Value.str "mp4")))),
                isHls := if pyLower (pyStr (dictGetD op "type" (Value.str "mp4"))) = "hls"
                            ∨ pyLower (pyStr (dictGetD op "type" (Value.str "mp4"))) = "m3u8"
                         then true else st.isHls } := by
  simp [cpu_step, hn, cpu_step_named]

theorem cpu_step_thumbnail_eq (st : CpuState) (op : Dict)
    (hn : cpuOpName op = Except.ok "thumbnail") :
    cpu_step st op = Except.ok
      { st with cmd := st.cmd ++ ["-ss", pyStr (dictGetD op "at" (Value.int 1)), "-frames:v", "1"],
                forcedExt := if extFalsy st.forcedExt then some "png" else st.forcedExt } := by
  simp [cpu_step, hn, cpu_step_named]

theorem cpu_step_rotate_eq (st : CpuState) (op : Dict) (deg : Int)
    (hn : cpuOpName op = Except.ok "rotate")
    (hdeg : pyInt (dictGetD op "degrees" (Value.int 0)) = Except.ok deg) :
    cpu_step st op = Except.ok { st with vf := st.vf ++ rotateFilters deg } := by
  simp [cpu_step, hn, cpu_step_named, hdeg]

theorem gpu_step_format_eq (cfg : GpuConfig) (st : GpuState) (op : Dict)
    (hv : dictGetD op "op" (Value.str "") = Value.str "format") :
    gpu_step cfg st op = Except.ok
      { st with forcedExt := some (pyLower (pyStr (dictGetD op "type" (Value.str "mp4")))),
                isHls := if pyLower (pyStr (dictGetD op "type" (Value.str "mp4"))) = "hls"
                            ∨ pyLower (pyStr (dictGetD op "type" (Value.str "mp4"))) = "m3u8"
                         then true else st.isHls } := by
  simp [gpu_step, hv]

theorem gpu_step_rotate_eq (cfg : GpuConfig) (st : GpuState) (op : Dict) (deg : Int)
    (hv : dictGetD op "op" (Value.str "") = Value.str "rotate")
    (hdeg : pyInt (dictGetD op "degrees" (Value.int 0)) = Except.ok deg) :
    gpu_step cfg st op = Except.ok { st with vf := st.vf ++ rotateFilters deg } := by
  simp [gpu_step, hv, hdeg]

theorem gpu_run_ops_append (cfg : GpuConfig) (a b : List Dict) (st : GpuState) :
    gpu_run_ops cfg st (a ++ b) =
      match gpu_run_ops cfg st a with
      | Except.error e => Except.error e
      | Except.ok st' => gpu_run_ops cfg st' b := by
  induction a generalizing st with
  | nil => simp [gpu_run_ops]
  | cons op rest ih =>
    simp only [List.cons_append, gpu_run_ops]
    cases gpu_step cfg st op with
    | error e => rfl
    | ok st' => exact ih st'

theorem cpu_run_isHls_mono (l : List Dict) (st st' : CpuState)
    (h : cpu_run_ops st l = Except.ok st') (hh : st.isHls = true) : st'.isHls = true := by
  induction l generalizing st with
  | nil => simp only [cpu_run_ops, Except.ok.injEq] at h; subst h; exact hh
  | cons op rest ih =>
    simp only [cpu_run_ops] at h
    cases hs : cpu_step st op with
    | error e => rw [hs] at h; cases h
    | ok st₁ =>
      rw [hs] at h
      exact ih st₁ h (cpu_step_isHls_mono st st₁ op hs hh)

theorem gpu_run_isHls_mono (cfg : GpuConfig) (l : List Dict) (st st' : GpuState)
    (h : gpu_run_ops cfg st l = Except.ok st') (hh : st.isHls = true) : st'.isHls = true := by
  induction l generalizing st with
  | nil => simp only [gpu_run_ops, Except.ok.injEq] at h; subst h; exact hh
  | cons op rest ih =>
    simp only [gpu_run_ops] at h
    cases hs : gpu_step cfg st op with
    | error e => rw [hs] at h; cases h
    | ok st₁ =>
      rw [hs] at h
      exact ih st₁ h (gpu_step_isHls_mono cfg st st₁ op hs hh)

/-- Over a run whose descriptors never name `format`, a nonempty forced
extension is preserved (a later `thumbnail` only overrides a falsy one). -/
theorem cpu_run_forcedExt_keep (l : List Dict) (st st' : CpuState) (t : String)
    (h : cpu_run_ops st l = Except.ok st')
    (hnf : ∀ d ∈ l, cpuOpName d ≠ Except.ok "format")
    (hf : st.forcedExt = some t) (ht : t ≠ "") : st'.forcedExt = some t := by
  induction l generalizing st with
  | nil => simp only [cpu_run_ops, Except.ok.injEq] at h; subst h; exact hf
  | cons op rest ih =>
    simp only [cpu_run_ops] at h
    cases hs : cpu_step st op with
    | error e => rw [hs] at h; cases h
    | ok st₁ =>
      rw [hs] at h
      have h1 : st₁.forcedExt = some t := by
        rcases cpu_step_forcedExt_shape st st₁ op hs with he | ⟨hfmt, _⟩ | ⟨_, hth⟩
        · rw [he, hf]
        · exact absurd hfmt (hnf op (List.mem_cons_self op rest))
        · rw [hth, hf]
          simp [extFalsy, hf, ht]
      exact ih st₁ h (fun d hd => hnf d (List.mem_cons_of_mem op hd)) h1

theorem cpu_run_forcedExt_untouched (l : List Dict) (st st' : CpuState)
    (h : cpu_run_ops st l = Except.ok st')
    (hn : ∀ d ∈ l, cpuOpName d ≠ Except.ok "format" ∧ cpuOpName d ≠ Except.ok "thumbnail") :
    st'.forcedExt = st.forcedExt := by
  induction l generalizing st with
  | nil => simp only [cpu_run_ops, Except.ok.injEq] at h; subst h; rfl
  | cons op rest ih =>
    simp only [cpu_run_ops] at h
    cases hs : cpu_step st op with
    | error e => rw [hs] at h; cases h
    | ok st₁ =>
      rw [hs] at h
      have h1 : st₁.forcedExt = st.forcedExt := by
        rcases cpu_step_forcedExt_shape st st₁ op hs with he | ⟨hfmt, _⟩ | ⟨hthm, _⟩
        · exact he
        · exact absurd hfmt (hn op (List.mem_cons_self op rest)).1
        · exact absurd hthm (hn op (List.mem_cons_self op rest)).2
      rw [ih st₁ h (fun d hd => hn d (List.mem_cons_of_mem _ hd)), h1]

theorem cpu_run_thumbnail_png (l : List Dict) (st st' : CpuState)
    (h : cpu_run_ops st l = Except.ok st')
    (hnf : ∀ d ∈ l, cpuOpName d ≠ Except.ok "format")
    (hth : ∃ d ∈ l, cpuOpName d = Except.ok "thumbnail")
    (hst : st.forcedExt = none ∨ st.forcedExt = some "png") :
    st'.forcedExt = some "png" := by
  induction l generalizing st with
  | nil =>
    rcases hth with ⟨d, hd, _⟩
    exact absurd hd (List.not_mem_nil d)
  | cons op rest ih =>
    simp only [cpu_run_ops] at h
    cases hs : cpu_step st op with
    | error e => rw [hs] at h; cases h
    | ok st₁ =>
      rw [hs] at h
      rcases hth with ⟨d, hd, hdth⟩
      rcases List.mem_cons.mp hd with rfl | hdrest
      · rw [cpu_step_thumbnail_eq st d hdth] at hs
        injection hs with hs₂
        have h1 : st₁.forcedExt = some "png" := by
          rw [← hs₂]
          rcases hst with h0 | h0 <;> simp [extFalsy, h0]
        exact cpu_run_forcedExt_keep rest st₁ st' "png" h
          (fun e he => hnf e (List.mem_cons_of_mem _ he)) h1 (by decide)
      · have h1 : st₁.forcedExt = none ∨ st₁.forcedExt = some "png" := by
          rcases cpu_step_forcedExt_shape st st₁ op hs with he | ⟨hfmt, _⟩ | ⟨_, hthm⟩
          · rw [he]; exact hst
          · exact absurd hfmt (hnf op (List.mem_cons_self op rest))
          · rcases hst with h0 | h0 <;> rw [hthm] <;> simp [extFalsy, h0]
        exact ih st₁ h (fun e he => hnf e (List.mem_cons_of_mem _ he)) ⟨d, hdrest, hdth⟩ h1

theorem cpu_finalize_forcedExt (cfg : CpuConfig) (st : CpuState) :
    (cpu_finalize cfg st).forcedExt = st.forcedExt := by
  unfold cpu_finalize
  split_ifs <;> rfl

theorem cpu_finalize_isHls (cfg : CpuConfig) (st : CpuState) :
    (cpu_finalize cfg st).isHls = st.isHls := by
  unfold cpu_finalize
  split_ifs <;> rfl

theorem gpu_finalize_forcedExt (cfg : GpuConfig) (st : GpuState) :
    (gpu_finalize cfg st).forcedExt = st.forcedExt := rfl

theorem gpu_finalize_isHls (cfg : GpuConfig) (st : GpuState) :
    (gpu_finalize cfg st).isHls = st.isHls := rfl

theorem cpu_run_ops_append (a b : List Dict) (st : CpuState) :
    cpu_run_ops st (a ++ b) =
      match cpu_run_ops st a with
      | Except.error e => Except.error e
      | Except.ok st' => cpu_run_ops st' b := by
  induction a generalizing st with
  | nil => simp [cpu_run_ops]
  | cons op rest ih =>
    simp only [List.cons_append, cpu_run_ops]
    cases cpu_step st op with
    | error e => rfl
    | ok st' => exact ih st'

/-- C3: for every `rotate` operation in either backend, degrees 90 yields exactly
the one `transpose=1` filter, 180 yields the composed `transpose=1,transpose=1`
pair, 270 yields the opposite `transpose=2`, 0 yields no filter, and every degree
value that is not a multiple of 90 yields exactly one generic rotate filter whose
angle is the degree value converted to radians, with a black fill colour. -/
theorem rotate_operation_compilation (st : CpuState) (gcfg : GpuConfig) (gst : GpuState)
    (op : Dict) (deg : Int)
    (hdeg : pyInt (dictGetD op "degrees" (Value.int 0)) = Except.ok deg) :
    (cpuOpName op = Except.ok "rotate" →
      cpu_step st op = Except.ok { st with vf := st.vf ++ rotateFilters deg }) ∧
    (dictGetD op "op" (Value.str "") = Value.str "rotate" →
      gpu_step gcfg gst op = Except.ok { gst with vf := gst.vf ++ rotateFilters deg }) ∧
    rotateFilters 90 = ["transpose=1"] ∧
    rotateFilters 180 = ["transpose=1,transpose=1"] ∧
    rotateFilters 270 = ["transpose=2"] ∧
    rotateFilters 0 = [] ∧
    (deg % 90 ≠ 0 →
      rotateFilters deg =
        ["rotate=" ++ decimalOfScaled (deg * 174532925) 10 ++ ":fillcolor=black"]) := by
  refine ⟨fun hn => cpu_step_rotate_eq st op deg hn hdeg,
          fun hv => gpu_step_rotate_eq gcfg gst op deg hv hdeg,
          by decide, by decide, by decide, by decide,
          fun hne => by simp [rotateFilters, hne, rotateFilterStr]⟩

/-- Witness for C3: concrete rotate descriptors for 90 and 45 degrees. -/
theorem rotate_operation_compilation_witness :
    cpu_step (cpuInit []) [("op", Value.str "rotate"), ("degrees", Value.int 90)] =
      Except.ok { cpuInit [] with vf := ["transpose=1"] } ∧
    gpu_step sampleGpuCfg (gpuInit [])
        [("op", Value.str "rotate"), ("degrees", Value.int 45)] =
      Except.ok { gpuInit [] with vf := ["rotate=0.7853981625:fillcolor=black"] } := by
  constructor
  · have h := (rotate_operation_compilation (cpuInit []) sampleGpuCfg (gpuInit [])
      [("op", Value.str "rotate"), ("degrees", Value.int 90)] 90 (by rfl)).1 (by rfl)
    exact h.trans (by decide)
  · have h := (rotate_operation_compilation (cpuInit []) sampleGpuCfg (gpuInit [])
      [("op", Value.str "rotate"), ("degrees", Value.int 45)] 45 (by rfl)).2.1 (by rfl)
    exact h.trans (by decide)

/-- C10: rotate by a multiple of 90 other than 90/180/270 (for example 360, 450
or -90) compiles to no filter at all in both backends, exactly like degrees=0. -/
theorem rotate_other_right_angle_identity (st : CpuState) (gcfg : GpuConfig) (gst : GpuState)
    (op : Dict) (deg : Int)
    (hdeg : pyInt (dictGetD op "degrees" (Value.int 0)) = Except.ok deg)
    (h0 : deg % 90 = 0) (h90 : deg ≠ 90) (h180 : deg ≠ 180) (h270 : deg ≠ 270) :
    (cpuOpName op = Except.ok "rotate" → cpu_step st op = Except.ok st) ∧
    (dictGetD op "op" (Value.str "") = Value.str "rotate" →
      gpu_step gcfg gst op = Except.ok gst) := by
  have hf : rotateFilters deg = [] := by simp [rotateFilters, h0, h90, h180, h270]
  constructor
  · intro hn
    have h := cpu_step_rotate_eq st op deg hn hdeg
    rw [hf] at h
    simpa using h
  · intro hv
    have h := gpu_step_rotate_eq gcfg gst op deg hv hdeg
    rw [hf] at h
    simpa using h

/-- Witness for C10: rotate by 360, -90 and 450 leaves the state unchanged. -/
theorem rotate_other_right_angle_identity_witness :
    cpu_step (cpuInit []) [("op", Value.str "rotate"), ("degrees", Value.int 360)] =
      Except.ok (cpuInit []) ∧
    cpu_step (cpuInit []) [("op", Value.str "rotate"), ("degrees", Value.int (-90))] =
      Except.ok (cpuInit []) ∧
    gpu_step sampleGpuCfg (gpuInit [])
        [("op", Value.str "rotate"), ("degrees", Value.int 450)] =
      Except.ok (gpuInit []) := by
  refine ⟨?_, ?_, ?_⟩
  · exact (rotate_other_right_angle_identity (cpuInit []) sampleGpuCfg (gpuInit [])
      [("op", Value.str "rotate"), ("degrees", Value.int 360)] 360 (by rfl)
      (by decide) (by decide) (by decide) (by decide)).1 (by rfl)
  · exact (rotate_other_right_angle_identity (cpuInit []) sampleGpuCfg (gpuInit [])
      [("op", Value.str "rotate"), ("degrees", Value.int (-90))] (-90) (by rfl)
      (by decide) (by decide) (by decide) (by decide)).1 (by rfl)
  · exact (rotate_other_right_angle_identity (cpuInit []) sampleGpuCfg (gpuInit [])
      [("op", Value.str "rotate"), ("degrees", Value.int 450)] 450 (by rfl)
      (by decide) (by decide) (by decide) (by decide)).2 (by rfl)

/-- C4: the parser coerces each argument value in exactly this priority order:
case-insensitive true/false becomes a boolean; else an all-digits value becomes
an integer; else a value containing a decimal point becomes a float, silently
falling back to the original string when the float conversion fails; else the
value stays a string; and a key supplied without `=` is recorded as a
boolean-true flag. -/
theorem parser_value_coercion (v : String) (it : Dict) (part : String) :
    (pyLower v = "true" → coerceValue v = Value.bool true) ∧
    (pyLower v = "false" → coerceValue v = Value.bool false) ∧
    (pyLower v ≠ "true" → pyLower v ≠ "false" → pyIsdigit v = true →
      coerceValue v = Value.int (digitsToNat v.toList)) ∧
    (pyLower v ≠ "true" → pyLower v ≠ "false" → pyIsdigit v = false →
      strContains v '.' = true → (parsePyFloat v).isSome = true →
      coerceValue v = Value.float v) ∧
    (pyLower v ≠ "true" → pyLower v ≠ "false" → pyIsdigit v = false →
      strContains v '.' = true → (parsePyFloat v).isSome = false →
      coerceValue v = Value.str v) ∧
    (pyLower v ≠ "true" → pyLower v ≠ "false" → pyIsdigit v = false →
      strContains v '.' = false → coerceValue v = Value.str v) ∧
    (part ≠ "" → strContains part '=' = false →
      parseArgInto it part = dictSet it (pyStrip part) (Value.bool true)) := by
  refine ⟨?_, ?_, ?_, ?_, ?_, ?_, ?_⟩ <;> intros <;> simp_all [coerceValue, parseArgInto]

/-- Witness for C4: each coercion branch and the bare-flag rule at concrete
inputs. -/
theorem parser_value_coercion_witness :
    coerceValue "TRUE" = Value.bool true ∧
    coerceValue "False" = Value.bool false ∧
    coerceValue "120" = Value.int 120 ∧
    coerceValue "29.97" = Value.float "29.97" ∧
    coerceValue "1.5.2" = Value.str "1.5.2" ∧
    coerceValue "slow" = Value.str "slow" ∧
    parseArgInto [("op", Value.str "x")] "flag" =
      [("op", Value.str "x"), ("flag", Value.bool true)] := by
  refine ⟨?_, ?_, ?_, ?_, ?_, ?_, ?_⟩
  · exact (parser_value_coercion "TRUE" [] "x").1 (by decide)
  · exact (parser_value_coercion "False" [] "x").2.1 (by decide)
  · exact ((parser_value_coercion "120" [] "x").2.2.1
      (by decide) (by decide) (by decide)).trans (by decide)
  · exact (parser_value_coercion "29.97" [] "x").2.2.2.1
      (by decide) (by decide) (by decide) (by decide) (by decide)
  · exact (parser_value_coercion "1.5.2" [] "x").2.2.2.2.1
      (by decide) (by decide) (by decide) (by decide) (by decide)
  · exact (parser_value_coercion "slow" [] "x").2.2.2.2.2.1
      (by decide) (by decide) (by decide) (by decide)
  · exact ((parser_value_coercion "x" [("op", Value.str "x")] "flag").2.2.2.2.2.2
      (by decide) (by decide)).trans (by decide)

/-- C5: the CPU codec/container selector is a pure function of the target
format recognizing exactly mp4/m4v/mov, webm, mkv, gif and hls/m3u8; webm
selects the webm container with the vp9 video and opus audio codecs; gif
disables audio via `-an` in its codec argument list; every unrecognized format
maps to the mp4 container with the default codec pair. -/
theorem container_codec_selection (fmt : String) :
    cpu_choose_container_and_codecs "mp4" =
      ("mp4", ["-c:v", "libx264", "-c:a", "aac", "-movflags", "+faststart"]) ∧
    cpu_choose_container_and_codecs "m4v" =
      ("mp4", ["-c:v", "libx264", "-c:a", "aac", "-movflags", "+faststart"]) ∧
    cpu_choose_container_and_codecs "mov" =
      ("mp4", ["-c:v", "libx264", "-c:a", "aac", "-movflags", "+faststart"]) ∧
    cpu_choose_container_and_codecs "webm" =
      ("webm", ["-c:v", "libvpx-vp9", "-row-mt", "1", "-c:a", "libopus"]) ∧
    cpu_choose_container_and_codecs "mkv" = ("mkv", ["-c:v", "libx264", "-c:a", "aac"]) ∧
    cpu_choose_container_and_codecs "gif" = ("gif", ["-an", "-loop", "0"]) ∧
    "-an" ∈ (cpu_choose_container_and_codecs "gif").2 ∧
    cpu_choose_container_and_codecs "hls" =
      ("m3u8", ["-c:v", "libx264", "-c:a", "aac", "-f", "hls",
                "-hls_time", "4", "-hls_list_size", "0"]) ∧
    cpu_choose_container_and_codecs "m3u8" =
      ("m3u8", ["-c:v", "libx264", "-c:a", "aac", "-f", "hls",
                "-hls_time", "4", "-hls_list_size", "0"]) ∧
    (pyLower (if fmt = "" then "mp4" else fmt) ∉
        (["mp4", "m4v", "mov", "webm", "mkv", "gif", "hls", "m3u8"] : List String) →
      cpu_choose_container_and_codecs fmt =
        ("mp4", ["-c:v", "libx264", "-c:a", "aac", "-movflags", "+faststart"])) := by
  refine ⟨by decide, by decide, by decide, by decide, by decide, by decide, by decide,
          by decide, by decide, fun h => ?_⟩
  simp only [List.mem_cons, List.not_mem_nil, or_false, not_or] at h
  obtain ⟨h1, h2, h3, h4, h5, h6, h7, h8⟩ := h
  simp [cpu_choose_container_and_codecs, h1, h2, h3, h4, h5, h6, h7, h8]

/-- Witness for C5: the unrecognized format `avi` falls back to mp4. -/
theorem container_codec_selection_witness :
    cpu_choose_container_and_codecs "avi" =
      ("mp4", ["-c:v", "libx264", "-c:a", "aac", "-movflags", "+faststart"]) :=
  (container_codec_selection "avi").2.2.2.2.2.2.2.2.2 (by decide)

/-- C8: a descriptor whose name is not a recognized operation leaves the CPU
compiler's entire output (filters, codec argument lists, flags, command) exactly
as if the descriptor were absent, and raises no error. -/
theorem unknown_operation_ignored (cfg : CpuConfig) (cmd : List String)
    (l1 l2 : List Dict) (d : Dict) (s : String)
    (hname : cpuOpName d = Except.ok s) (hunk : s ∉ cpuRecognizedNames) :
    cpu_apply_ops_and_watermark cfg cmd (l1 ++ d :: l2) =
      cpu_apply_ops_and_watermark cfg cmd (l1 ++ l2) := by
  have hstep : ∀ st : CpuState, cpu_step st d = Except.ok st := by
    intro st
    simp [cpu_step, hname, cpu_step_named_unknown st d s hunk]
  have hrun : ∀ st : CpuState, cpu_run_ops st (l1 ++ d :: l2) = cpu_run_ops st (l1 ++ l2) := by
    intro st
    rw [cpu_run_ops_append, cpu_run_ops_append]
    cases cpu_run_ops st l1 with
    | error e => rfl
    | ok st₁ => simp only [cpu_run_ops, hstep st₁]
  unfold cpu_apply_ops_and_watermark
  rw [hrun]

/-- Witness for C8: a `sepia` descriptor between two recognized operations
compiles identically to the list without it. -/
theorem unknown_operation_ignored_witness :
    cpu_apply_ops_and_watermark sampleCpuCfg []
        (parse_ops_query ["fps:value=24", "sepia:level=3", "grayscale"]) =
      cpu_apply_ops_and_watermark sampleCpuCfg []
        (parse_ops_query ["fps:value=24", "grayscale"]) := by
  have h := unknown_operation_ignored sampleCpuCfg []
    [parseOneOp "fps:value=24"] [parseOneOp "grayscale"] (parseOneOp "sepia:level=3")
    "sepia" (by decide) (by decide)
  exact (by decide : parse_ops_query ["fps:value=24", "sepia:level=3", "grayscale"] =
    [parseOneOp "fps:value=24"] ++ parseOneOp "sepia:level=3" :: [parseOneOp "grayscale"]) ▸
    (by decide : parse_ops_query ["fps:value=24", "grayscale"] =
      [parseOneOp "fps:value=24"] ++ [parseOneOp "grayscale"]) ▸ h

/-- C1: the watermark-enable contract across the two backends.  The GPU
backend honours `WATERMARK_ENABLED`: disabled, the compiled output carries no
watermark stage (no drawtext in the linear chain, no overlay graph); enabled,
the drawtext filter is appended after every client-produced filter (text mode)
or the two-input overlay graph is emitted (image mode).  The CPU backend's
configuration has **no** enable flag at all: its compositor runs
unconditionally, appending the drawtext filter last or emitting the overlay
graph.  This proves the claimed common enable/disable behaviour is violated:
only the GPU backend can disable the watermark. -/
theorem watermark_enable_contract (gcfg : GpuConfig) (gst : GpuState)
    (cfg : CpuConfig) (st : CpuState) :
    (gcfg.wmEnabled = false →
      gpu_finalize gcfg gst =
        { cmd := gst.cmd, forcedExt := gst.forcedExt, complexTuple := none,
          isHls := gst.isHls,
          vfCodecs :=
            (if gcfg.encoder = "h264_vaapi" then
              ["-vf", String.intercalate "," (gst.vf ++ ["format=nv12,hwupload"])]
             else if gst.vf ≠ [] then ["-vf", String.intercalate "," gst.vf] else []) ++
            gst.vcodec ++ gst.acodec }) ∧
    (gcfg.wmEnabled = true → ¬(gcfg.wmImage ≠ "" ∧ gcfg.wmImageExists) →
      gpu_finalize gcfg gst =
        { cmd := gst.cmd, forcedExt := gst.forcedExt, complexTuple := none,
          isHls := gst.isHls,
          vfCodecs :=
            ["-vf", String.intercalate ","
              (gst.vf ++
                [drawFilterOf gcfg.wmFont gcfg.wmText gcfg.wmFontsize gcfg.wmOpacity gcfg.wmInset] ++
                (if gcfg.encoder = "h264_vaapi" then ["format=nv12,hwupload"] else []))] ++
            gst.vcodec ++ gst.acodec }) ∧
    (gcfg.wmEnabled = true → gcfg.wmImage ≠ "" ∧ gcfg.wmImageExists →
      gpu_finalize gcfg gst =
        { cmd := gst.cmd, forcedExt := gst.forcedExt,
          complexTuple := some ("-filter_complex",
            overlayChainOf gcfg.wmOpacity gcfg.wmInset, "-map"),
          isHls := gst.isHls,
          vfCodecs :=
            (if gst.vf ≠ [] then ["-vf", String.intercalate "," gst.vf] else []) ++
            gst.vcodec ++ gst.acodec ++ ["[vout]"] }) ∧
    (cfg.wmImage ≠ "" ∧ cfg.wmImageExists →
      cpu_finalize cfg st =
        { cmd := st.cmd ++ ["-map", "0:a?"] ++ ["-i", cfg.wmImage] ++ st.vcodec ++ st.acodec,
          forcedExt := st.forcedExt,
          complexTuple := some ("-filter_complex",
            overlayChainOf cfg.wmOpacity cfg.wmInset, "-map"),
          isHls := st.isHls }) ∧
    (¬(cfg.wmImage ≠ "" ∧ cfg.wmImageExists) →
      cpu_finalize cfg st =
        { cmd := st.cmd ++
            ["-vf", String.intercalate ","
              (st.vf ++ [drawFilterOf cfg.wmFont cfg.wmText cfg.wmFontsize cfg.wmOpacity cfg.wmInset])] ++
            st.vcodec ++ st.acodec,
          forcedExt := st.forcedExt, complexTuple := none, isHls := st.isHls }) := by
  refine ⟨fun hw => ?_, fun hw himg => ?_, fun hw himg => ?_, fun himg => ?_, fun himg => ?_⟩
  · by_cases he : gcfg.encoder = "h264_vaapi" <;>
      simp [gpu_finalize, hw, he]
  · by_cases he : gcfg.encoder = "h264_vaapi" <;>
      simp [gpu_finalize, hw, himg, he]
  · by_cases he : gcfg.encoder = "h264_vaapi" <;>
      by_cases hv : gst.vf = [] <;>
      simp [gpu_finalize, hw, himg, he, hv]
  · simp [cpu_finalize, himg]
  · simp [cpu_finalize, himg]

/-- Witness for C1: concrete finalizations — GPU with the flag off emits no
watermark stage; GPU with the flag on emits the drawtext filter; the CPU
backend emits the drawtext filter although its configuration carries no flag
that could disable it. -/
theorem watermark_enable_contract_witness :
    gpu_finalize { sampleGpuCfg with wmEnabled := false } (gpuInit ["ffmpeg"]) =
      { cmd := ["ffmpeg"], forcedExt := none, complexTuple := none, isHls := false,
        vfCodecs := [] } ∧
    gpu_finalize sampleGpuCfg (gpuInit ["ffmpeg"]) =
      { cmd := ["ffmpeg"], forcedExt := none, complexTuple := none, isHls := false,
        vfCodecs := ["-vf",
          "drawtext=fontfile=\x27/font.ttf\x27:text=\x27Demo\x27:fontsize=28:fontcolor=white@0.35:borderw=2:bordercolor=black@0.21:x=w-tw-12:y=h-th-12"] } ∧
    cpu_finalize sampleCpuCfg (cpuInit ["ffmpeg"]) =
      { cmd := ["ffmpeg", "-vf",
          "drawtext=fontfile=\x27/font.ttf\x27:text=\x27Demo\x27:fontsize=28:fontcolor=white@0.35:borderw=2:bordercolor=black@0.21:x=w-tw-12:y=h-th-12"],
        forcedExt := none, complexTuple := none, isHls := false } ∧
    cpu_finalize { sampleCpuCfg with wmImage := "/wm.png", wmImageExists := true }
        (cpuInit ["ffmpeg"]) =
      { cmd := ["ffmpeg", "-map", "0:a?", "-i", "/wm.png"], forcedExt := none,
        complexTuple := some ("-filter_complex",
          "[1:v]format=rgba,colorchannelmixer=aa=0.35[wm];[0:v][wm]overlay=W-w-12:H-h-12[vout]",
          "-map"),
        isHls := false } := by
  refine ⟨?_, ?_, ?_, ?_⟩
  · exact ((watermark_enable_contract { sampleGpuCfg with wmEnabled := false }
      (gpuInit ["ffmpeg"]) sampleCpuCfg (cpuInit ["ffmpeg"])).1 (by decide)).trans (by decide)
  · exact ((watermark_enable_contract sampleGpuCfg
      (gpuInit ["ffmpeg"]) sampleCpuCfg (cpuInit ["ffmpeg"])).2.1 (by decide)
      (by decide)).trans (by decide)
  · exact ((watermark_enable_contract sampleGpuCfg
      (gpuInit ["ffmpeg"]) sampleCpuCfg (cpuInit ["ffmpeg"])).2.2.2.2 (by decide)).trans
      (by decide)
  · exact ((watermark_enable_contract sampleGpuCfg (gpuInit ["ffmpeg"])
      { sampleCpuCfg with wmImage := "/wm.png", wmImageExists := true }
      (cpuInit ["ffmpeg"])).2.2.2.1 (by decide)).trans (by decide)

/-- C9: placement of the accelerator upload stage in hardware mode.  On every
linear-chain path (text watermark or watermark disabled) the GPU finaliser
appends `format=nv12,hwupload` — pixel-format conversion then upload — as the
last element of the `-vf` chain, after all CPU-side filters and before the
codec arguments.  But on the image-watermark two-input graph path the upload
stage is **not** attached anywhere: the output is exactly the graph tuple plus
the unchanged client filters, refuting the claim that the upload step is
present for every job in hardware mode. -/
theorem vaapi_upload_stage_placement (gcfg : GpuConfig) (gst : GpuState)
    (he : gcfg.encoder = "h264_vaapi") :
    (gcfg.wmEnabled = true → ¬(gcfg.wmImage ≠ "" ∧ gcfg.wmImageExists) →
      gpu_finalize gcfg gst =
        { cmd := gst.cmd, forcedExt := gst.forcedExt, complexTuple := none,
          isHls := gst.isHls,
          vfCodecs :=
            ["-vf", String.intercalate ","
              (gst.vf ++
                [drawFilterOf gcfg.wmFont gcfg.wmText gcfg.wmFontsize gcfg.wmOpacity gcfg.wmInset] ++
                ["format=nv12,hwupload"])] ++
            gst.vcodec ++ gst.acodec }) ∧
    (gcfg.wmEnabled = false →
      gpu_finalize gcfg gst =
        { cmd := gst.cmd, forcedExt := gst.forcedExt, complexTuple := none,
          isHls := gst.isHls,
          vfCodecs :=
            ["-vf", String.intercalate "," (gst.vf ++ ["format=nv12,hwupload"])] ++
            gst.vcodec ++ gst.acodec }) ∧
    (gcfg.wmEnabled = true → gcfg.wmImage ≠ "" ∧ gcfg.wmImageExists →
      gpu_finalize gcfg gst =
        { cmd := gst.cmd, forcedExt := gst.forcedExt,
          complexTuple := some ("-filter_complex",
            overlayChainOf gcfg.wmOpacity gcfg.wmInset, "-map"),
          isHls := gst.isHls,
          vfCodecs :=
            (if gst.vf ≠ [] then ["-vf", String.intercalate "," gst.vf] else []) ++
            gst.vcodec ++ gst.acodec ++ ["[vout]"] }) := by
  refine ⟨fun hw himg => ?_, fun hw => ?_, fun hw himg => ?_⟩
  · simp [gpu_finalize, hw, himg, he]
  · simp [gpu_finalize, hw, he]
  · by_cases hv : gst.vf = [] <;> simp [gpu_finalize, hw, himg, he, hv]

/-- Witness for C9: in hardware mode the text-watermark path ends its `-vf`
chain with `format=nv12,hwupload`, while the image-graph path compiles to the
bare graph arguments with no upload stage anywhere in its filter/codec
argument list. -/
theorem vaapi_upload_stage_placement_witness :
    gpu_finalize { sampleGpuCfgVaapi with wmImage := "", wmImageExists := false }
        (gpuInit ["ffmpeg"]) =
      { cmd := ["ffmpeg"], forcedExt := none, complexTuple := none, isHls := false,
        vfCodecs := ["-vf",
          "drawtext=fontfile=\x27/font.ttf\x27:text=\x27Demo\x27:fontsize=28:fontcolor=white@0.35:borderw=2:bordercolor=black@0.21:x=w-tw-12:y=h-th-12,format=nv12,hwupload"] } ∧
    gpu_finalize sampleGpuCfgVaapi (gpuInit ["ffmpeg"]) =
      { cmd := ["ffmpeg"], forcedExt := none,
        complexTuple := some ("-filter_complex",
          "[1:v]format=rgba,colorchannelmixer=aa=0.35[wm];[0:v][wm]overlay=W-w-12:H-h-12[vout]",
          "-map"),
        isHls := false, vfCodecs := ["[vout]"] } ∧
    "format=nv12,hwupload" ∉
      (gpu_finalize sampleGpuCfgVaapi (gpuInit ["ffmpeg"])).vfCodecs := by
  refine ⟨?_, ?_, ?_⟩
  · exact ((vaapi_upload_stage_placement
      { sampleGpuCfgVaapi with wmImage := "", wmImageExists := false }
      (gpuInit ["ffmpeg"]) (by decide)).1 (by decide) (by decide)).trans (by decide)
  · exact ((vaapi_upload_stage_placement sampleGpuCfgVaapi
      (gpuInit ["ffmpeg"]) (by decide)).2.2 (by decide) (by decide)).trans (by decide)
  · have h := ((vaapi_upload_stage_placement sampleGpuCfgVaapi
      (gpuInit ["ffmpeg"]) (by decide)).2.2 (by decide) (by decide))
    rw [h]
    decide

theorem cpu_run_sets_isHls (l : List Dict) (st st' : CpuState)
    (h : cpu_run_ops st l = Except.ok st')
    (hd : ∃ d ∈ l, cpuOpName d = Except.ok "format" ∧
      (pyLower (pyStr (dictGetD d "type" (Value.str "mp4"))) = "hls" ∨
       pyLower (pyStr (dictGetD d "type" (Value.str "mp4"))) = "m3u8")) :
    st'.isHls = true := by
  induction l generalizing st with
  | nil =>
    rcases hd with ⟨d, hdm, _⟩
    exact absurd hdm (List.not_mem_nil d)
  | cons op rest ih =>
    simp only [cpu_run_ops] at h
    cases hs : cpu_step st op with
    | error e => rw [hs] at h; cases h
    | ok st₁ =>
      rw [hs] at h
      rcases hd with ⟨d, hdm, hfmt, hty⟩
      rcases List.mem_cons.mp hdm with rfl | hdrest
      · have h1 : st₁.isHls = true := by
          rw [cpu_step_format_eq st d hfmt] at hs
          injection hs with hs₂
          rw [← hs₂]
          rcases hty with ht | ht <;> simp [ht]
        exact cpu_run_isHls_mono rest st₁ st' h h1
      · exact ih st₁ h ⟨d, hdrest, hfmt, hty⟩

theorem gpu_run_sets_isHls (cfg : GpuConfig) (l : List Dict) (st st' : GpuState)
    (h : gpu_run_ops cfg st l = Except.ok st')
    (hd : ∃ d ∈ l, dictGetD d "op" (Value.str "") = Value.str "format" ∧
      (pyLower (pyStr (dictGetD d "type" (Value.str "mp4"))) = "hls" ∨
       pyLower (pyStr (dictGetD d "type" (Value.str "mp4"))) = "m3u8")) :
    st'.isHls = true := by
  induction l generalizing st with
  | nil =>
    rcases hd with ⟨d, hdm, _⟩
    exact absurd hdm (List.not_mem_nil d)
  | cons op rest ih =>
    simp only [gpu_run_ops] at h
    cases hs : gpu_step cfg st op with
    | error e => rw [hs] at h; cases h
    | ok st₁ =>
      rw [hs] at h
      rcases hd with ⟨d, hdm, hfmt, hty⟩
      rcases List.mem_cons.mp hdm with rfl | hdrest
      · have h1 : st₁.isHls = true := by
          rw [gpu_step_format_eq cfg st d hfmt] at hs
          injection hs with hs₂
          rw [← hs₂]
          rcases hty with ht | ht <;> simp [ht]
        exact gpu_run_isHls_mono cfg rest st₁ st' h h1
      · exact ih st₁ h ⟨d, hdrest, hfmt, hty⟩

/-- C2 (amended): exactly one output extension is resolved per job by the CPU
compiler.  If a format operation is present whose `type` value renders to a
nonempty string and no later format operation follows it, that value
(lowercased) is the resolved extension regardless of the operation's position;
with no format operation, a thumbnail operation resolves the extension to the
image extension `png`; with neither, the extension defaults to `mp4`.  (The
nonemptiness proviso is forced by the counterexample: an empty `type` value is
falsy, so a later thumbnail overrides it.) -/
theorem output_extension_resolution (cfg : CpuConfig) (cmd : List String)
    (ops l1 l2 : List Dict) (d : Dict) (out : CpuOut)
    (h : cpu_apply_ops_and_watermark cfg cmd ops = Except.ok out) :
    (ops = l1 ++ d :: l2 → cpuOpName d = Except.ok "format" →
      (∀ e ∈ l2, cpuOpName e ≠ Except.ok "format") →
      pyLower (pyStr (dictGetD d "type" (Value.str "mp4"))) ≠ "" →
      out.forcedExt = some (pyLower (pyStr (dictGetD d "type" (Value.str "mp4")))) ∧
      pyOrExt out.forcedExt "mp4" = pyLower (pyStr (dictGetD d "type" (Value.str "mp4")))) ∧
    ((∀ e ∈ ops, cpuOpName e ≠ Except.ok "format") →
      (∃ t ∈ ops, cpuOpName t = Except.ok "thumbnail") →
      out.forcedExt = some "png" ∧ pyOrExt out.forcedExt "mp4" = "png") ∧
    ((∀ e ∈ ops, cpuOpName e ≠ Except.ok "format" ∧ cpuOpName e ≠ Except.ok "thumbnail") →
      out.forcedExt = none ∧ pyOrExt out.forcedExt "mp4" = "mp4") := by
  unfold cpu_apply_ops_and_watermark at h
  cases hr : cpu_run_ops (cpuInit cmd) ops with
  | error e => rw [hr] at h; cases h
  | ok stF =>
    rw [hr] at h
    injection h with h₂
    have hout : out.forcedExt = stF.forcedExt := by
      rw [← h₂, cpu_finalize_forcedExt]
    refine ⟨fun hsplit hfmt hl2 hne => ?_, fun hnf hth => ?_, fun hnone => ?_⟩
    · subst hsplit
      rw [cpu_run_ops_append] at hr
      cases h1 : cpu_run_ops (cpuInit cmd) l1 with
      | error e => rw [h1] at hr; cases hr
      | ok stA =>
        rw [h1] at hr
        simp only [cpu_run_ops] at hr
        cases hs : cpu_step stA d with
        | error e => rw [hs] at hr; cases hr
        | ok stB =>
          rw [hs] at hr
          have hB : stB.forcedExt =
              some (pyLower (pyStr (dictGetD d "type" (Value.str "mp4")))) := by
            rw [cpu_step_format_eq stA d hfmt] at hs
            injection hs with hs₂
            rw [← hs₂]
          have hF := cpu_run_forcedExt_keep l2 stB stF _ hr hl2 hB hne
          rw [hout, hF]
          exact ⟨rfl, by simp [pyOrExt, hne]⟩
    · have hF := cpu_run_thumbnail_png ops (cpuInit cmd) stF hr hnf hth (Or.inl rfl)
      rw [hout, hF]
      exact ⟨rfl, by decide⟩
    · have hF : stF.forcedExt = none := cpu_run_forcedExt_untouched ops (cpuInit cmd) stF hr hnone
      rw [hout, hF]
      exact ⟨rfl, rfl⟩

/-- Counterexample for C2 as frozen: operations `format:type=` then `thumbnail`
contain a format operation, yet the resolved extension is `png` — the format
operation's (empty) type value did not determine the extension, its empty
string being falsy and overridable by the thumbnail default. -/
theorem output_extension_resolution_cex :
    (cpu_apply_ops_and_watermark sampleCpuCfg []
        (parse_ops_query ["format:type=", "thumbnail"])).map CpuOut.forcedExt =
      Except.ok (some "png") ∧
    pyStr (dictGetD (parseOneOp "format:type=") "type" (Value.str "mp4")) = "" ∧
    ("png" : String) ≠ pyLower (pyStr (dictGetD (parseOneOp "format:type=") "type"
      (Value.str "mp4"))) ∧
    ("png" : String) ≠ "mp4" := by decide

/-- Witness for C2: a format operation placed after a thumbnail still wins
(webm); thumbnail alone resolves png; no format/thumbnail resolves mp4. -/
theorem output_extension_resolution_witness :
    (cpu_apply_ops_and_watermark sampleCpuCfg []
        (parse_ops_query ["thumbnail", "format:type=WebM"])).map CpuOut.forcedExt =
      Except.ok (some "webm") ∧
    (cpu_apply_ops_and_watermark sampleCpuCfg []
        (parse_ops_query ["thumbnail"])).map CpuOut.forcedExt = Except.ok (some "png") ∧
    (cpu_apply_ops_and_watermark sampleCpuCfg []
        (parse_ops_query ["fps:value=24"])).map CpuOut.forcedExt = Except.ok none := by
  refine ⟨?_, ?_, ?_⟩
  · cases hap : cpu_apply_ops_and_watermark sampleCpuCfg []
        (parse_ops_query ["thumbnail", "format:type=WebM"]) with
    | error e => cases e <;> exact absurd hap (by decide)
    | ok out =>
      have h := (output_extension_resolution sampleCpuCfg []
        (parse_ops_query ["thumbnail", "format:type=WebM"])
        [parseOneOp "thumbnail"] [] (parseOneOp "format:type=WebM") out hap).1
        (by decide) (by decide) (fun e he => absurd he (List.not_mem_nil e)) (by decide)
      rw [Except.map, h.1]
      decide
  · cases hap : cpu_apply_ops_and_watermark sampleCpuCfg []
        (parse_ops_query ["thumbnail"]) with
    | error e => cases e <;> exact absurd hap (by decide)
    | ok out =>
      have h := (output_extension_resolution sampleCpuCfg []
        (parse_ops_query ["thumbnail"]) [] [] (parseOneOp "thumbnail") out hap).2.1
        (by decide) (by decide)
      rw [Except.map, h.1]
  · cases hap : cpu_apply_ops_and_watermark sampleCpuCfg []
        (parse_ops_query ["fps:value=24"]) with
    | error e => cases e <;> exact absurd hap (by decide)
    | ok out =>
      have h := (output_extension_resolution sampleCpuCfg []
        (parse_ops_query ["fps:value=24"]) [] [] (parseOneOp "fps:value=24") out hap).2.2
        (by decide)
      rw [Except.map, h.1]

/-- C6: a job whose operations include a format operation of type hls (or
m3u8) takes the segmented branch in both backends: the deliverable is a single
archive with content type `application/zip`, whose command writes the playlist
`index.m3u8` and the zero-padded segment files into a dedicated per-job
subdirectory that is then zipped — and being the archive constructor of the
single `JobOutput` deliverable, the job never also yields a transcoded single
file. -/
theorem hls_segmented_archive (cfg : CpuConfig) (gcfg : GpuConfig)
    (inP tmp hN zN oN : String) (ops : List Dict) (job gjob : JobOutput) :
    (cpu_process_video cfg inP tmp hN zN oN ops = Except.ok job →
      (∃ d ∈ ops, cpuOpName d = Except.ok "format" ∧
        (pyLower (pyStr (dictGetD d "type" (Value.str "mp4"))) = "hls" ∨
         pyLower (pyStr (dictGetD d "type" (Value.str "mp4"))) = "m3u8")) →
      ∃ fc, job = JobOutput.archive fc (tmp ++ "/hls-" ++ hN)
        (tmp ++ "/hls-" ++ hN ++ "/index.m3u8")
        (tmp ++ "/hls-" ++ hN ++ "/seg_%04d.ts")
        (tmp ++ "/hls_" ++ zN ++ ".zip") "application/zip") ∧
    (gpu_process_video gcfg inP tmp hN zN oN ops = Except.ok gjob →
      (∃ d ∈ ops, dictGetD d "op" (Value.str "") = Value.str "format" ∧
        (pyLower (pyStr (dictGetD d "type" (Value.str "mp4"))) = "hls" ∨
         pyLower (pyStr (dictGetD d "type" (Value.str "mp4"))) = "m3u8")) →
      ∃ fc, gjob = JobOutput.archive fc (tmp ++ "/hls-" ++ hN)
        (tmp ++ "/hls-" ++ hN ++ "/index.m3u8")
        (tmp ++ "/hls-" ++ hN ++ "/seg_%04d.ts")
        (tmp ++ "/hls_" ++ zN ++ ".zip") "application/zip") := by
  constructor
  · intro hcp hd
    unfold cpu_process_video at hcp
    cases ha : cpu_apply_ops_and_watermark cfg (cpu_base_cmd cfg.ffmpeg inP) ops with
    | error e => rw [ha] at hcp; cases hcp
    | ok out =>
      rw [ha] at hcp
      simp only [] at hcp
      have hhls : out.isHls = true := by
        unfold cpu_apply_ops_and_watermark at ha
        cases hr : cpu_run_ops (cpuInit (cpu_base_cmd cfg.ffmpeg inP)) ops with
        | error e => rw [hr] at ha; cases ha
        | ok stF =>
          rw [hr] at ha
          injection ha with ha₂
          rw [← ha₂, cpu_finalize_isHls]
          exact cpu_run_sets_isHls ops _ stF hr hd
      rw [if_pos hhls] at hcp
      injection hcp with hcp₂
      exact ⟨_, hcp₂.symm⟩
  · intro hcp hd
    unfold gpu_process_video at hcp
    cases hb : gpu_base_cmd gcfg inP with
    | error e => rw [hb] at hcp; cases hcp
    | ok base =>
      rw [hb] at hcp
      simp only [] at hcp
      cases ha : gpu_apply_ops_and_watermark gcfg base ops with
      | error e => rw [ha] at hcp; cases hcp
      | ok out =>
        rw [ha] at hcp
        simp only [] at hcp
        have hhls : out.isHls = true := by
          unfold gpu_apply_ops_and_watermark at ha
          cases hr : gpu_run_ops gcfg (gpuInit base) ops with
          | error e => rw [hr] at ha; cases ha
          | ok stF =>
            rw [hr] at ha
            injection ha with ha₂
            rw [← ha₂, gpu_finalize_isHls]
            exact gpu_run_sets_isHls gcfg ops _ stF hr hd
        rw [if_pos (Or.inr (Or.inr hhls))] at hcp
        injection hcp with hcp₂
        exact ⟨_, hcp₂.symm⟩

/-- Witness for C6: a concrete hls job on each backend yields the archive
deliverable with content type application/zip. -/
theorem hls_segmented_archive_witness :
    (∃ fc, cpu_process_video sampleCpuCfg "in.mp4" "/t" "h" "z" "o"
        (parse_ops_query ["format:type=hls"]) =
      Except.ok (JobOutput.archive fc "/t/hls-h" "/t/hls-h/index.m3u8"
        "/t/hls-h/seg_%04d.ts" "/t/hls_z.zip" "application/zip")) ∧
    (∃ fc, gpu_process_video sampleGpuCfg "in.mp4" "/t" "h" "z" "o"
        (parse_ops_query ["format:type=hls"]) =
      Except.ok (JobOutput.archive fc "/t/hls-h" "/t/hls-h/index.m3u8"
        "/t/hls-h/seg_%04d.ts" "/t/hls_z.zip" "application/zip")) := by
  constructor
  · cases hcp : cpu_process_video sampleCpuCfg "in.mp4" "/t" "h" "z" "o"
        (parse_ops_query ["format:type=hls"]) with
    | error e => cases e <;> exact absurd hcp (by decide)
    | ok job =>
      rcases (hls_segmented_archive sampleCpuCfg sampleGpuCfg "in.mp4" "/t" "h" "z" "o"
        (parse_ops_query ["format:type=hls"]) job job).1 hcp (by decide) with ⟨fc, hj⟩
      exact ⟨fc, by rw [hj]; rfl⟩
  · cases hcp : gpu_process_video sampleGpuCfg "in.mp4" "/t" "h" "z" "o"
        (parse_ops_query ["format:type=hls"]) with
    | error e => cases e <;> exact absurd hcp (by decide)
    | ok job =>
      rcases (hls_segmented_archive sampleCpuCfg sampleGpuCfg "in.mp4" "/t" "h" "z" "o"
        (parse_ops_query ["format:type=hls"]) job job).2 hcp (by decide) with ⟨fc, hj⟩
      exact ⟨fc, by rw [hj]; rfl⟩

/-- C7 (amended): a single-file job's content type is `mediaTypeOf` of the
resolved container, with the entries mp4→video/mp4, webm→video/webm,
mkv→video/x-matroska, mov→video/quicktime, gif→image/gif (and
m3u8→application/vnd.apple.mpegurl), anything else mapping to the generic
binary type.  However the selector only ever returns the containers
mp4/webm/mkv/gif/m3u8 — never mov — so the quicktime entry is unreachable and
a job with `format:type=mov` resolves to container mp4 and returns
video/mp4. -/
theorem media_type_mapping (c fmt : String) (cfg : CpuConfig)
    (inP tmp hN zN oN : String) (ops : List Dict) (fc : List String) (p cont m : String) :
    mediaTypeOf "mp4" = "video/mp4" ∧
    mediaTypeOf "webm" = "video/webm" ∧
    mediaTypeOf "mkv" = "video/x-matroska" ∧
    mediaTypeOf "mov" = "video/quicktime" ∧
    mediaTypeOf "gif" = "image/gif" ∧
    (c ∉ (["mp4", "webm", "mkv", "mov", "gif", "m3u8"] : List String) →
      mediaTypeOf c = "application/octet-stream") ∧
    (cpu_process_video cfg inP tmp hN zN oN ops = Except.ok (JobOutput.single fc p cont m) →
      m = mediaTypeOf cont) ∧
    (cpu_choose_container_and_codecs fmt).1 ∈ (["mp4", "webm", "mkv", "gif", "m3u8"] : List String) := by
  refine ⟨by decide, by decide, by decide, by decide, by decide, fun hm => ?_, fun hcp => ?_, ?_⟩
  · simp only [List.mem_cons, List.not_mem_nil, or_false, not_or] at hm
    obtain ⟨h1, h2, h3, h4, h5, h6⟩ := hm
    simp [mediaTypeOf, h1, h2, h3, h4, h5, h6]
  · unfold cpu_process_video at hcp
    cases ha : cpu_apply_ops_and_watermark cfg (cpu_base_cmd cfg.ffmpeg inP) ops with
    | error e => rw [ha] at hcp; cases hcp
    | ok out =>
      rw [ha] at hcp
      simp only [] at hcp
      split at hcp
      · exact absurd (Except.ok.inj hcp) (fun hh => JobOutput.noConfusion hh)
      · have h₂ := Except.ok.inj hcp
        injection h₂ with hfc hp hcont hm
        rw [← hcont, ← hm]
  · simp only [cpu_choose_container_and_codecs]
    split_ifs <;> decide

/-- Counterexample for C7 as frozen: a job with operation `format:type=mov`
returns content type video/mp4, not video/quicktime. -/
theorem media_type_mapping_cex :
    (cpu_process_video sampleCpuCfg "in.mp4" "/t" "h" "z" "o"
        [parseOneOp "format:type=mov"]).map JobOutput.mediaTypeOut =
      Except.ok "video/mp4" ∧
    ("video/mp4" : String) ≠ "video/quicktime" := by decide

/-- Witness for C7: an unknown container maps to the generic binary type, a
concrete webm single-file job returns a content type derived from its
container, and the target format mov yields the mp4 container. -/
theorem media_type_mapping_witness :
    mediaTypeOf "avi" = "application/octet-stream" ∧
    (cpu_choose_container_and_codecs "mov").1 ∈
      (["mp4", "webm", "mkv", "gif", "m3u8"] : List String) ∧
    (cpu_choose_container_and_codecs "mov").1 = "mp4" ∧
    (∃ fc p, cpu_process_video sampleCpuCfg "in.mp4" "/t" "h" "z" "o"
        (parse_ops_query ["format:type=webm"]) =
      Except.ok (JobOutput.single fc p "webm" (mediaTypeOf "webm"))) := by
  refine ⟨(media_type_mapping "avi" "mov" sampleCpuCfg "in.mp4" "/t" "h" "z" "o" [] [] ""
      "" "").2.2.2.2.2.1 (by decide),
    (media_type_mapping "avi" "mov" sampleCpuCfg "in.mp4" "/t" "h" "z" "o" [] [] ""
      "" "").2.2.2.2.2.2.2, by decide, ?_⟩
  cases hcp : cpu_process_video sampleCpuCfg "in.mp4" "/t" "h" "z" "o"
      (parse_ops_query ["format:type=webm"]) with
  | error e => cases e <;> exact absurd hcp (by decide)
  | ok job =>
    cases job with
    | archive fc dir pl seg zp mt =>
      have h2 : (cpu_process_video sampleCpuCfg "in.mp4" "/t" "h" "z" "o"
          (parse_ops_query ["format:type=webm"])).map JobOutput.isArchive =
          Except.ok false := by decide
      rw [hcp] at h2
      exact absurd h2 (by simp [Except.map, JobOutput.isArchive])
    | single fc p cont m =>
      have hm := (media_type_mapping "avi" "mov" sampleCpuCfg "in.mp4" "/t" "h" "z" "o"
        (parse_ops_query ["format:type=webm"]) fc p cont m).2.2.2.2.2.2.1 hcp
      have h2 : (cpu_process_video sampleCpuCfg "in.mp4" "/t" "h" "z" "o"
          (parse_ops_query ["format:type=webm"])).map JobOutput.containerOut =
          Except.ok "webm" := by decide
      rw [hcp] at h2
      simp only [Except.map, JobOutput.containerOut, Except.ok.injEq] at h2
      subst h2
      subst hm
      exact ⟨fc, p, rfl⟩
